import Mathlib

/-!
Verification of the template renderer specified for
project-foundation-framework.  The repository ships a single artifact: the
template text of health-check-template.py, whose marker syntax (simple
interpolation, conditional blocks, iteration blocks) is processed by the
Template Renderer described in the specification.  The renderer itself is not
part of the shipped sources, so its operations are modelled here directly from
the specification, and the shipped template text is checked against that
model.
-/

/-- Modelled from the spec: the two typed errors of the Template Renderer
(section 7): a structural error for unmatched or mismatched block delimiters,
and a resolution error for a referenced placeholder or flag with no context
entry. -/
inductive RenderError where
  | undefinedVariable (name : String)
  | malformedTemplate
deriving DecidableEq

/-- Modelled from the spec: an element of a sequence context value — either a
scalar (exposed to `this` inside an iteration body) or a record of named
fields. -/
inductive Elem where
  | scalar (s : String)
  | record (fields : List (String × String))
deriving DecidableEq

/-- Modelled from the spec: context values are strings, booleans, or ordered
sequences of records/scalars; `recV` is the value a record element is bound to
inside an iteration body. -/
inductive Value where
  | str (s : String)
  | boolV (b : Bool)
  | listV (elems : List Elem)
  | recV (fields : List (String × String))
deriving DecidableEq

/-- String form of a sequence element. -/
def elemToStr : Elem → String
  | Elem.scalar s => s
  | Elem.record fs => String.join (fs.map (fun p => p.1 ++ "=" ++ p.2))

/-- Modelled from the spec: the string form of a context value, used by simple
interpolation. -/
def Value.toStr : Value → String
  | Value.str s => s
  | Value.boolV b => if b then "true" else "false"
  | Value.listV l => String.join (l.map elemToStr)
  | Value.recV fs => String.join (fs.map (fun p => p.1 ++ "=" ++ p.2))

/-- Modelled from the spec: truthiness of a context value, deciding whether a
conditional block is retained. -/
def Value.truthy : Value → Bool
  | Value.str s => !s.isEmpty
  | Value.boolV b => b
  | Value.listV l => !l.isEmpty
  | Value.recV fs => !fs.isEmpty

/-- Modelled from the spec: a context is a mapping from placeholder name to
value, consumed immutably. -/
abbrev Context := List (String × Value)

/-- Look a name up in a context (first binding wins). -/
def lookupCtx : Context → String → Option Value
  | [], _ => none
  | (k, v) :: rest, n => if k = n then some v else lookupCtx rest n

/-- Modelled from the spec: the bindings an iteration element contributes — a
scalar binds `this`; a record binds each of its named fields and `this`. -/
def elemBindings : Elem → List (String × Value)
  | Elem.scalar s => [("this", Value.str s)]
  | Elem.record fs => fs.map (fun p => (p.1, Value.str p.2)) ++ [("this", Value.recV fs)]

/-- Extend/override a context with the bindings of one iteration element. -/
def extendCtx (e : Elem) (ctx : Context) : Context :=
  elemBindings e ++ ctx

/-- Modelled from the spec (section 9): the tagged-variant AST of a parsed
template — literal text, simple interpolation, conditional block, iteration
block, sequencing, and the empty template. -/
inductive Node where
  | text (s : String)
  | interp (name : String)
  | cond (flag : String) (body : Node)
  | iter (listName : String) (body : Node)
  | seq (a b : Node)
  | empty
deriving DecidableEq

/-- All context names a template AST can ever look up while rendering:
interpolation names, conditional flags, iteration list names. -/
def refNames : Node → List String
  | Node.text _ => []
  | Node.interp n => [n]
  | Node.cond f b => f :: refNames b
  | Node.iter l b => l :: refNames b
  | Node.seq a b => refNames a ++ refNames b
  | Node.empty => []

/-- Render an iteration body (given as a rendering function) once per element
of a sequence, each time with the context extended by that element's bindings,
concatenating the results in sequence order. -/
def goElems (f : Context → Except RenderError String) (ctx : Context) :
    List Elem → Except RenderError String
  | [] => Except.ok ""
  | e :: rest =>
    match f (extendCtx e ctx) with
    | Except.error er => Except.error er
    | Except.ok s =>
      match goElems f ctx rest with
      | Except.error er => Except.error er
      | Except.ok t => Except.ok (s ++ t)

/-- Modelled from the spec: the recursive interpretation of a template AST
against a context.  Interpolation fails with `undefinedVariable` on a missing
name; a conditional renders its body with the same context when the flag is
truthy, emits nothing when it is falsy, and fails with `undefinedVariable`
when the flag is absent; an iteration renders its body once per element of the
sequence bound to its list name. -/
def renderNode : Node → Context → Except RenderError String
  | Node.text s, _ => Except.ok s
  | Node.interp n, ctx =>
    match lookupCtx ctx n with
    | some v => Except.ok v.toStr
    | none => Except.error (RenderError.undefinedVariable n)
  | Node.cond f body, ctx =>
    match lookupCtx ctx f with
    | some v =>
      match v.truthy with
      | true => renderNode body ctx
      | false => Except.ok ""
    | none => Except.error (RenderError.undefinedVariable f)
  | Node.iter l body, ctx =>
    match lookupCtx ctx l with
    | some (Value.listV elems) => goElems (renderNode body) ctx elems
    | some _ => Except.error (RenderError.undefinedVariable l)
    | none => Except.error (RenderError.undefinedVariable l)
  | Node.seq a b, ctx =>
    match renderNode a ctx with
    | Except.error e => Except.error e
    | Except.ok sa =>
      match renderNode b ctx with
      | Except.error e => Except.error e
      | Except.ok sb => Except.ok (sa ++ sb)
  | Node.empty, _ => Except.ok ""

/-- A token of the scanning phase: a run of literal text, or the content of
one double-brace marker. -/
inductive Tok where
  | text (s : String)
  | marker (content : String)
deriving DecidableEq

/-- The opening-brace character. -/
def lbrace : Char := Char.ofNat 123

/-- The closing-brace character. -/
def rbrace : Char := Char.ofNat 125

/-- The state of the left-to-right scanning pass between two characters:
in literal text (with the reversed pending run), just saw a single opening
brace, inside a marker (reversed pending content), or inside a marker having
just seen a single closing brace. -/
inductive SMode where
  | plain (run : List Char)
  | sawOpen (run : List Char)
  | inMark (run : List Char) (buf : List Char)
  | sawClose (run : List Char) (buf : List Char)
deriving DecidableEq

/-- Scanner state: tokens emitted so far (in reverse order) plus the current
mode. -/
structure SState where
  toks : List Tok
  mode : SMode
deriving DecidableEq

/-- The token (if any) a pending literal run flushes to. -/
def runToks : List Char → List Tok
  | [] => []
  | c :: cs => [Tok.text (String.mk ((c :: cs).reverse))]

/-- The tokens one scanner step emits (in reverse order): a completed marker
flushes the pending literal run and then the marker itself. -/
def stepToks : SMode → Char → List Tok
  | SMode.sawClose run buf, c =>
    if c = rbrace then Tok.marker (String.mk buf.reverse) :: runToks run else []
  | _, _ => []

/-- The scanner mode after consuming one character. -/
def stepMode : SMode → Char → SMode
  | SMode.plain run, c =>
    if c = lbrace then SMode.sawOpen run else SMode.plain (c :: run)
  | SMode.sawOpen run, c =>
    if c = lbrace then SMode.inMark run [] else SMode.plain (c :: lbrace :: run)
  | SMode.inMark run buf, c =>
    if c = rbrace then SMode.sawClose run buf else SMode.inMark run (c :: buf)
  | SMode.sawClose run buf, c =>
    if c = rbrace then SMode.plain [] else SMode.inMark run (c :: rbrace :: buf)

/-- Modelled from the spec: one step of the single left-to-right scanning
pass (the simple parser state machine of section 4.1). -/
def step (s : SState) (c : Char) : SState :=
  ⟨stepToks s.mode c ++ s.toks, stepMode s.mode c⟩

/-- Flush the scanner state at end of input: a pending run becomes a final
text token; an unterminated marker is restored as literal text. -/
def finalize (s : SState) : List Tok :=
  match s.mode with
  | SMode.plain run => (runToks run ++ s.toks).reverse
  | SMode.sawOpen run => (runToks (lbrace :: run) ++ s.toks).reverse
  | SMode.inMark run buf =>
    (runToks (buf ++ lbrace :: lbrace :: run) ++ s.toks).reverse
  | SMode.sawClose run buf =>
    (runToks (rbrace :: buf ++ lbrace :: lbrace :: run) ++ s.toks).reverse

/-- The initial scanner state. -/
def initState : SState := ⟨[], SMode.plain []⟩

/-- Modelled from the spec: the token stream of a template string, produced by
the single left-to-right scan. -/
def scanTemplate (t : String) : List Tok :=
  finalize (t.data.foldl step initState)

/-- A character that may occur in a marker IDENTIFIER. -/
def isIdentChar (c : Char) : Bool := c.isAlphanum || c == '_'

/-- A valid marker IDENTIFIER: nonempty, made of identifier characters. -/
def isIdentL (cs : List Char) : Bool := !cs.isEmpty && cs.all isIdentChar

/-- The classification of one marker's content. -/
inductive MTok where
  | interp (name : String)
  | openIf (flag : String)
  | closeIf (flag : String)
  | openEach (listName : String)
  | closeEach
  | invalid
deriving DecidableEq

/-- Modelled from the spec (section 6): classify a marker's content as a
simple interpolation, a conditional opener/closer, or an iteration
opener/closer.  Content that fits none of the marker forms (for instance
content that is not a valid IDENTIFIER) is `invalid` and is treated as
literal text. -/
def classify : List Char → MTok
  | '#' :: 'i' :: 'f' :: '_' :: rest =>
    if isIdentL rest then MTok.openIf (String.mk rest) else MTok.invalid
  | '/' :: 'i' :: 'f' :: '_' :: rest =>
    if isIdentL rest then MTok.closeIf (String.mk rest) else MTok.invalid
  | '#' :: 'e' :: 'a' :: 'c' :: 'h' :: ' ' :: rest =>
    if isIdentL rest then MTok.openEach (String.mk rest) else MTok.invalid
  | ['/', 'e', 'a', 'c', 'h'] => MTok.closeEach
  | cs => if isIdentL cs then MTok.interp (String.mk cs) else MTok.invalid

/-- The literal text an invalid marker contributes: its content, braces
restored. -/
def mkLiteralMarker (content : String) : String :=
  String.mk (lbrace :: lbrace :: (content.data ++ [rbrace, rbrace]))

/-- What the recursive-descent parser is currently expecting to terminate a
block: nothing (top level), a matching conditional closer, or an iteration
closer. -/
inductive Stop where
  | top
  | inIf (flag : String)
  | inEach
deriving DecidableEq

/-- Modelled from the spec: single-pass recursive-descent parsing of the token
stream into the AST.  `none` is the structural failure (unmatched or
mismatched block delimiters, the spec's `MalformedTemplate`).  The `fuel`
argument only bounds recursion depth; at least one token is consumed per
step, so any fuel above the token count leaves the result unchanged. -/
def parseB : Nat → List Tok → Stop → Option (Node × List Tok)
  | 0, _, _ => none
  | _ + 1, [], stop =>
    match stop with
    | Stop.top => some (Node.empty, [])
    | _ => none
  | fuel + 1, Tok.text s :: rest, stop =>
    match parseB fuel rest stop with
    | some (n, r) => some (Node.seq (Node.text s) n, r)
    | none => none
  | fuel + 1, Tok.marker content :: rest, stop =>
    match classify content.data with
    | MTok.invalid =>
      match parseB fuel rest stop with
      | some (n, r) => some (Node.seq (Node.text (mkLiteralMarker content)) n, r)
      | none => none
    | MTok.interp name =>
      match parseB fuel rest stop with
      | some (n, r) => some (Node.seq (Node.interp name) n, r)
      | none => none
    | MTok.openIf flag =>
      match parseB fuel rest (Stop.inIf flag) with
      | some (body, rest1) =>
        match parseB fuel rest1 stop with
        | some (tail, rest2) => some (Node.seq (Node.cond flag body) tail, rest2)
        | none => none
      | none => none
    | MTok.closeIf flag =>
      match stop with
      | Stop.inIf f => if f = flag then some (Node.empty, rest) else none
      | _ => none
    | MTok.openEach listName =>
      match parseB fuel rest Stop.inEach with
      | some (body, rest1) =>
        match parseB fuel rest1 stop with
        | some (tail, rest2) => some (Node.seq (Node.iter listName body) tail, rest2)
        | none => none
      | none => none
    | MTok.closeEach =>
      match stop with
      | Stop.inEach => some (Node.empty, rest)
      | _ => none

/-- Parse a token stream into an AST; `none` is a malformed template. -/
def parseTokens (toks : List Tok) : Option Node :=
  match parseB (toks.length + 1) toks Stop.top with
  | some (n, _) => some n
  | none => none

/-- Modelled from the spec: the single parse pass from template text to AST;
`none` is the spec's `MalformedTemplate`. -/
def parseTemplate (t : String) : Option Node :=
  parseTokens (scanTemplate t)

/-- Modelled from the spec: Render(template, context).  Structural validation
happens first (before any output); a successfully parsed template is then
interpreted against the context. -/
def renderTemplate (t : String) (ctx : Context) : Except RenderError String :=
  match parseTemplate t with
  | none => Except.error RenderError.malformedTemplate
  | some ast => renderNode ast ctx
/-- Does `pat` occur at the head of a character list? -/
def patHead : List Char → List Char → Bool
  | [], _ => true
  | _ :: _, [] => false
  | p :: ps, c :: cs => p == c && patHead ps cs

/-- Does `pat` occur anywhere inside a character list? -/
def patIn (pat : List Char) : List Char → Bool
  | [] => patHead pat []
  | c :: cs => patHead pat (c :: cs) || patIn pat cs

/-- Literal text that is guaranteed to survive, verbatim, into every
successful rendering in which every conditional flag on its path is truthy:
the text is found on the sequential spine, descending only into conditional
bodies whose flags belong to `flags`. -/
def spineHasTextUnder (pat : String) (flags : List String) : Node → Bool
  | Node.text t => patIn pat.data t.data
  | Node.seq a b => spineHasTextUnder pat flags a || spineHasTextUnder pat flags b
  | Node.cond f body => decide (f ∈ flags) && spineHasTextUnder pat flags body
  | _ => false

/-- The literal brace pair around the Docker format key Names. -/
def dotNamesLit : String := "\x7b\x7b.Names\x7d\x7d"

/-- The literal brace pair around the Docker format key Status. -/
def dotStatusLit : String := "\x7b\x7b.Status\x7d\x7d"

/-- The template consisting of a single interpolation marker for `n`. -/
def markerOf (n : String) : String :=
  String.mk (lbrace :: lbrace :: (n.data ++ [rbrace, rbrace]))

/-- Potential of a scanner mode: pending tokens not yet emitted. -/
def modeExtra : SMode → Nat
  | SMode.plain [] => 0
  | SMode.plain (_ :: _) => 1
  | SMode.sawOpen _ => 1
  | SMode.inMark [] _ => 1
  | SMode.inMark (_ :: _) _ => 2
  | SMode.sawClose [] _ => 1
  | SMode.sawClose (_ :: _) _ => 2

/-- Potential of a scanner state: emitted tokens plus pending ones. -/
def phi (s : SState) : Nat := s.toks.length + modeExtra s.mode
/-- The shipped template text of health-check-template.py, split into scan
segments (each boundary falls at a literal-text scanner state). -/
def hcSeg1 : String := "#!/usr/bin/env python3\n\n\"\"\"\n\x7b\x7bPROJECT_NAME\x7d\x7d - Health Check Script\nThis script verifies that the development environment is properly configured\nGenerated from template for \x7b\x7bPRIMARY_LANGUAGE\x7d\x7d project\n\"\"\"\n\nimport os\nimport sys\nimport subprocess\nimport json\nfrom pathlib import Path\n\n# Color"
def hcSeg2 : String := "s for output\nclass Colors:\n    RESET = \x27\\033[0m\x27\n    RED = \x27\\033[31m\x27\n    GREEN = \x27\\033[32m\x27\n    YELLOW = \x27\\033[33m\x27\n    BLUE = \x27\\033[34m\x27\n\ndef log(message, color=\x27RESET\x27):\n    color_code = getattr(Colors, color, Colors.RESET)\n    print(f\"\x7bcolor_code\x7d\x7bmessage\x7d\x7bColors.RESET\x7d\")\n\ndef checkmar"
def hcSeg3 : String := "k():\n    return f\"\x7bColors.GREEN\x7d✓\x7bColors.RESET\x7d\"\n\ndef crossmark():\n    return f\"\x7bColors.RED\x7d✗\x7bColors.RESET\x7d\"\n\ndef warning():\n    return f\"\x7bColors.YELLOW\x7d⚠\x7bColors.RESET\x7d\"\n\ndef check_environment():\n    log(\x27🏥 Running health check...\\n\x27, \x27BLUE\x27)\n    \n    all_checks_pass = True\n    \n    # Chec"
def hcSeg4 : String := "k Python version\n    \x7b\x7b#if_language_python\x7d\x7d\n    python_version = sys.version.split()[0]\n    log(f\"\x7bcheckmark()\x7d Python \x7bpython_version\x7d\")\n    \n    major, minor = map(int, python_version.split(\x27.\x27)[:2])\n    if major < \x7b\x7bPYTHON_MAJOR\x7d\x7d or (major == \x7b\x7bPYTHON_MAJOR\x7d\x7d and minor < \x7b\x7bPYTHON_MINOR\x7d\x7d"
def hcSeg5 : String := "):\n        log(f\"\x7bwarning()\x7d Python version should be \x7b\x7bPYTHON_MIN_VERSION\x7d\x7d or higher\", \x27YELLOW\x27)\n        all_checks_pass = False\n    \x7b\x7b/if_language_python\x7d\x7d\n    \n    # Check environment variables\n    log(\x27\\nEnvironment Variables:\x27, \x27BLUE\x27)\n    required_env_vars = [\n        \x7b\x7b#each REQUIRED_ENV_VARS\x7d\x7d"
def hcSeg6 : String := "\n        \x27\x7b\x7bthis\x7d\x7d\x27,\n        \x7b\x7b/each\x7d\x7d\n    ]\n    \n    for env_var in required_env_vars:\n        if os.environ.get(env_var):\n            log(f\"\x7bcheckmark()\x7d \x7benv_var\x7d is set\")\n        else:\n            log(f\"\x7bcrossmark()\x7d \x7benv_var\x7d is not set\")\n            all_checks_pass = False\n    \n    #"
def hcSeg7 : String := " Check file system\n    log(\x27\\nFile System:\x27, \x27BLUE\x27)\n    required_dirs = [\n        \x7b\x7b#each REQUIRED_DIRECTORIES\x7d\x7d\n        \x27\x7b\x7bthis\x7d\x7d\x27,\n        \x7b\x7b/each\x7d\x7d\n    ]\n    \n    for dir_path in required_dirs:\n        if Path(dir_path).exists() and Path(dir_path).is_dir():\n            log(f\"\x7bcheckmark"
def hcSeg8 : String := "()\x7d Directory \x7bdir_path\x7d exists\")\n        else:\n            log(f\"\x7bcrossmark()\x7d Directory \x7bdir_path\x7d missing\")\n            all_checks_pass = False\n    \n    required_files = [\n        \x7b\x7b#each REQUIRED_FILES\x7d\x7d\n        \x27\x7b\x7bthis\x7d\x7d\x27,\n        \x7b\x7b/each\x7d\x7d\n    ]\n    \n    for file_path in required_fil"
def hcSeg9 : String := "es:\n        if Path(file_path).exists():\n            log(f\"\x7bcheckmark()\x7d File \x7bfile_path\x7d exists\")\n        else:\n            log(f\"\x7bcrossmark()\x7d File \x7bfile_path\x7d missing\")\n            all_checks_pass = False\n    \n    \x7b\x7b#if_database_mongodb\x7d\x7d\n    # Check MongoDB connection\n    log(\x27\\nDataba"
def hcSeg10 : String := "se Connection:\x27, \x27BLUE\x27)\n    mongodb_uri = os.environ.get(\x27MONGODB_URI\x27)\n    if mongodb_uri:\n        try:\n            from pymongo import MongoClient\n            client = MongoClient(mongodb_uri, serverSelectionTimeoutMS=5000)\n            client.admin.command(\x27ping\x27)\n            log(f\"\x7bche"
def hcSeg11 : String := "ckmark()\x7d MongoDB connection successful\")\n            client.close()\n        except Exception as e:\n            log(f\"\x7bcrossmark()\x7d MongoDB connection failed: \x7bstr(e)\x7d\")\n            all_checks_pass = False\n    else:\n        log(f\"\x7bcrossmark()\x7d MONGODB_URI not configured\")\n        all_check"
def hcSeg12 : String := "s_pass = False\n    \x7b\x7b/if_database_mongodb\x7d\x7d\n    \n    \x7b\x7b#if_database_postgresql\x7d\x7d\n    # Check PostgreSQL connection\n    log(\x27\\nDatabase Connection:\x27, \x27BLUE\x27)\n    database_url = os.environ.get(\x27DATABASE_URL\x27)\n    if database_url:\n        try:\n            import psycopg2\n            conn = ps"
def hcSeg13 : String := "ycopg2.connect(database_url)\n            cur = conn.cursor()\n            cur.execute(\x27SELECT 1\x27)\n            log(f\"\x7bcheckmark()\x7d PostgreSQL connection successful\")\n            cur.close()\n            conn.close()\n        except Exception as e:\n            log(f\"\x7bcrossmark()\x7d PostgreSQL con"
def hcSeg14 : String := "nection failed: \x7bstr(e)\x7d\")\n            all_checks_pass = False\n    else:\n        log(f\"\x7bcrossmark()\x7d DATABASE_URL not configured\")\n        all_checks_pass = False\n    \x7b\x7b/if_database_postgresql\x7d\x7d\n    \n    \x7b\x7b#if_database_mysql\x7d\x7d\n    # Check MySQL connection\n    log(\x27\\nDatabase Connection:\x27, "
def hcSeg15 : String := "\x27BLUE\x27)\n    mysql_host = os.environ.get(\x27MYSQL_HOST\x27)\n    mysql_user = os.environ.get(\x27MYSQL_USER\x27)\n    if mysql_host and mysql_user:\n        try:\n            import mysql.connector\n            conn = mysql.connector.connect(\n                host=mysql_host,\n                user=mysql_user"
def hcSeg16 : String := ",\n                password=os.environ.get(\x27MYSQL_PASSWORD\x27, \x27\x27),\n                database=os.environ.get(\x27MYSQL_DATABASE\x27)\n            )\n            cursor = conn.cursor()\n            cursor.execute(\"SELECT 1\")\n            log(f\"\x7bcheckmark()\x7d MySQL connection successful\")\n            curso"
def hcSeg17 : String := "r.close()\n            conn.close()\n        except Exception as e:\n            log(f\"\x7bcrossmark()\x7d MySQL connection failed: \x7bstr(e)\x7d\")\n            all_checks_pass = False\n    else:\n        log(f\"\x7bcrossmark()\x7d MySQL connection not configured\")\n        all_checks_pass = False\n    \x7b\x7b/if_database_mysql\x7d\x7d"
def hcSeg18 : String := "\n    \n    \x7b\x7b#if_docker_required\x7d\x7d\n    # Check Docker services\n    log(\x27\\nDocker Services:\x27, \x27BLUE\x27)\n    try:\n        result = subprocess.run(\n            [\x27docker\x27, \x27ps\x27, \x27--format\x27, \x27table \x7b\x7b.Names\x7d\x7d\\t\x7b\x7b.Status\x7d\x7d\x27],\n            capture_output=True, text=True, check=True\n        )\n        "
def hcSeg19 : String := "running_containers = [line for line in result.stdout.split(\x27\\n\x27)[1:] if line.strip()]\n        \n        expected_containers = [\n            \x7b\x7b#each DOCKER_SERVICES\x7d\x7d\n            \x27\x7b\x7bcontainer_name\x7d\x7d\x27,\n            \x7b\x7b/each\x7d\x7d\n        ]\n        \n        for container in expected_containers:\n    "
def hcSeg20 : String := "        is_running = any(container in line for line in running_containers)\n            if is_running:\n                log(f\"\x7bcheckmark()\x7d \x7bcontainer\x7d is running\")\n            else:\n                log(f\"\x7bcrossmark()\x7d \x7bcontainer\x7d is not running\")\n                all_checks_pass = False\n    "
def hcSeg21 : String := "except Exception as e:\n        log(f\"\x7bwarning()\x7d Could not check Docker services: \x7bstr(e)\x7d\", \x27YELLOW\x27)\n    \x7b\x7b/if_docker_required\x7d\x7d\n    \n    # Check dependencies\n    log(\x27\\nDependencies:\x27, \x27BLUE\x27)\n    \x7b\x7b#if_language_python\x7d\x7d\n    if Path(\x27requirements.txt\x27).exists():\n        try:\n           "
def hcSeg22 : String := " result = subprocess.run(\n                [sys.executable, \x27-m\x27, \x27pip\x27, \x27list\x27, \x27--format\x27, \x27json\x27],\n                capture_output=True, text=True, check=True\n            )\n            installed_packages = json.loads(result.stdout)\n            log(f\"\x7bcheckmark()\x7d Dependencies installed (\x7bl"
def hcSeg23 : String := "en(installed_packages)\x7d packages)\")\n        except Exception:\n            log(f\"\x7bcrossmark()\x7d Could not check installed packages\")\n            all_checks_pass = False\n    else:\n        log(f\"\x7bwarning()\x7d requirements.txt not found\", \x27YELLOW\x27)\n    \n    # Check virtual environment\n    if hasa"
def hcSeg24 : String := "ttr(sys, \x27real_prefix\x27) or (hasattr(sys, \x27base_prefix\x27) and sys.base_prefix != sys.prefix):\n        log(f\"\x7bcheckmark()\x7d Running in virtual environment\")\n    else:\n        log(f\"\x7bwarning()\x7d Not running in virtual environment\", \x27YELLOW\x27)\n    \x7b\x7b/if_language_python\x7d\x7d\n    \n    # Custom health c"
def hcSeg25 : String := "hecks\n    \x7b\x7b#each CUSTOM_HEALTH_CHECKS\x7d\x7d\n    try:\n        \x7b\x7bcheck_code\x7d\x7d\n        log(f\"\x7bcheckmark()\x7d \x7b\x7bsuccess_message\x7d\x7d\")\n    except Exception as e:\n        log(f\"\x7bcrossmark()\x7d \x7b\x7bfailure_message\x7d\x7d: \x7bstr(e)\x7d\")\n        all_checks_pass = False\n    \x7b\x7b/each\x7d\x7d\n    \n    # Summary\n    log(\x27\\n\x27 + "
def hcSeg26 : String := "\x27=\x27 * 50, \x27BLUE\x27)\n    if all_checks_pass:\n        log(\x27🎉 All health checks passed!\x27, \x27GREEN\x27)\n        log(\x27\\nYour development environment is ready.\x27, \x27GREEN\x27)\n    else:\n        log(\x27❌ Some health checks failed\x27, \x27RED\x27)\n        log(\x27\\nPlease fix the issues above before proceeding.\x27, \x27YELLOW"
def hcSeg27 : String := "\x27)\n        sys.exit(1)\n\ndef main():\n    # Load environment variables if .env exists\n    if Path(\x27.env\x27).exists():\n        try:\n            from dotenv import load_dotenv\n            load_dotenv()\n        except ImportError:\n            log(f\"\x7bwarning()\x7d python-dotenv not installed, skippin"
def hcSeg28 : String := "g .env file\", \x27YELLOW\x27)\n    \n    try:\n        check_environment()\n    except Exception as e:\n        log(f\"\\n\x7bcrossmark()\x7d Health check failed with error:\", \x27RED\x27)\n        print(e)\n        sys.exit(1)\n\nif __name__ == \x27__main__\x27:\n    main()"

/-- The shipped template text of health-check-template.py, exactly as in the
repository. -/
def healthCheckTemplate : String :=
  hcSeg1 ++ hcSeg2 ++ hcSeg3 ++ hcSeg4 ++ hcSeg5 ++ hcSeg6 ++ hcSeg7 ++ hcSeg8
    ++ hcSeg9 ++ hcSeg10 ++ hcSeg11 ++ hcSeg12 ++ hcSeg13 ++ hcSeg14 ++ hcSeg15 ++ hcSeg16
    ++ hcSeg17 ++ hcSeg18 ++ hcSeg19 ++ hcSeg20 ++ hcSeg21 ++ hcSeg22 ++ hcSeg23 ++ hcSeg24
    ++ hcSeg25 ++ hcSeg26 ++ hcSeg27 ++ hcSeg28

/-- Scanner tokens accumulated at the segment boundaries (reverse order). -/
def hcAcc1 : List Tok :=
  [Tok.marker "PRIMARY_LANGUAGE",
    Tok.text " - Health Check Script\nThis script verifies that the development environment is properly configured\nGenerated from template for ",
    Tok.marker "PROJECT_NAME",
    Tok.text "#!/usr/bin/env python3\n\n\"\"\"\n"]

def hcAcc2 : List Tok :=
  [Tok.marker "PYTHON_MINOR",
    Tok.text " and minor < ",
    Tok.marker "PYTHON_MAJOR",
    Tok.text " or (major == ",
    Tok.marker "PYTHON_MAJOR",
    Tok.text "\n    python_version = sys.version.split()[0]\n    log(f\"\x7bcheckmark()\x7d Python \x7bpython_version\x7d\")\n    \n    major, minor = map(int, python_version.split(\x27.\x27)[:2])\n    if major < ",
    Tok.marker "#if_language_python",
    Tok.text " project\n\"\"\"\n\nimport os\nimport sys\nimport subprocess\nimport json\nfrom pathlib import Path\n\n# Colors for output\nclass Colors:\n    RESET = \x27\\033[0m\x27\n    RED = \x27\\033[31m\x27\n    GREEN = \x27\\033[32m\x27\n    YELLOW = \x27\\033[33m\x27\n    BLUE = \x27\\033[34m\x27\n\ndef log(message, color=\x27RESET\x27):\n    color_code = getattr(Colors, color, Colors.RESET)\n    print(f\"\x7bcolor_code\x7d\x7bmessage\x7d\x7bColors.RESET\x7d\")\n\ndef checkmark():\n    return f\"\x7bColors.GREEN\x7d✓\x7bColors.RESET\x7d\"\n\ndef crossmark():\n    return f\"\x7bColors.RED\x7d✗\x7bColors.RESET\x7d\"\n\ndef warning():\n    return f\"\x7bColors.YELLOW\x7d⚠\x7bColors.RESET\x7d\"\n\ndef check_environment():\n    log(\x27🏥 Running health check...\\n\x27, \x27BLUE\x27)\n    \n    all_checks_pass = True\n    \n    # Check Python version\n    "] ++ hcAcc1

def hcAcc3 : List Tok :=
  [Tok.marker "#each REQUIRED_ENV_VARS",
    Tok.text "\n    \n    # Check environment variables\n    log(\x27\\nEnvironment Variables:\x27, \x27BLUE\x27)\n    required_env_vars = [\n        ",
    Tok.marker "/if_language_python",
    Tok.text " or higher\", \x27YELLOW\x27)\n        all_checks_pass = False\n    ",
    Tok.marker "PYTHON_MIN_VERSION",
    Tok.text "):\n        log(f\"\x7bwarning()\x7d Python version should be "] ++ hcAcc2

def hcAcc4 : List Tok :=
  [Tok.marker "/each",
    Tok.text "\x27,\n        ",
    Tok.marker "this",
    Tok.text "\n        \x27"] ++ hcAcc3

def hcAcc5 : List Tok :=
  [Tok.marker "/each",
    Tok.text "\x27,\n        ",
    Tok.marker "this",
    Tok.text "\n        \x27",
    Tok.marker "#each REQUIRED_DIRECTORIES",
    Tok.text "\n    ]\n    \n    for env_var in required_env_vars:\n        if os.environ.get(env_var):\n            log(f\"\x7bcheckmark()\x7d \x7benv_var\x7d is set\")\n        else:\n            log(f\"\x7bcrossmark()\x7d \x7benv_var\x7d is not set\")\n            all_checks_pass = False\n    \n    # Check file system\n    log(\x27\\nFile System:\x27, \x27BLUE\x27)\n    required_dirs = [\n        "] ++ hcAcc4

def hcAcc6 : List Tok :=
  [Tok.marker "/each",
    Tok.text "\x27,\n        ",
    Tok.marker "this",
    Tok.text "\n        \x27",
    Tok.marker "#each REQUIRED_FILES",
    Tok.text "\n    ]\n    \n    for dir_path in required_dirs:\n        if Path(dir_path).exists() and Path(dir_path).is_dir():\n            log(f\"\x7bcheckmark()\x7d Directory \x7bdir_path\x7d exists\")\n        else:\n            log(f\"\x7bcrossmark()\x7d Directory \x7bdir_path\x7d missing\")\n            all_checks_pass = False\n    \n    required_files = [\n        "] ++ hcAcc5

def hcAcc7 : List Tok :=
  [Tok.marker "#if_database_mongodb",
    Tok.text "\n    ]\n    \n    for file_path in required_files:\n        if Path(file_path).exists():\n            log(f\"\x7bcheckmark()\x7d File \x7bfile_path\x7d exists\")\n        else:\n            log(f\"\x7bcrossmark()\x7d File \x7bfile_path\x7d missing\")\n            all_checks_pass = False\n    \n    "] ++ hcAcc6

def hcAcc8 : List Tok :=
  [Tok.marker "#if_database_postgresql",
    Tok.text "\n    \n    ",
    Tok.marker "/if_database_mongodb",
    Tok.text "\n    # Check MongoDB connection\n    log(\x27\\nDatabase Connection:\x27, \x27BLUE\x27)\n    mongodb_uri = os.environ.get(\x27MONGODB_URI\x27)\n    if mongodb_uri:\n        try:\n            from pymongo import MongoClient\n            client = MongoClient(mongodb_uri, serverSelectionTimeoutMS=5000)\n            client.admin.command(\x27ping\x27)\n            log(f\"\x7bcheckmark()\x7d MongoDB connection successful\")\n            client.close()\n        except Exception as e:\n            log(f\"\x7bcrossmark()\x7d MongoDB connection failed: \x7bstr(e)\x7d\")\n            all_checks_pass = False\n    else:\n        log(f\"\x7bcrossmark()\x7d MONGODB_URI not configured\")\n        all_checks_pass = False\n    "] ++ hcAcc7

def hcAcc9 : List Tok :=
  [Tok.marker "#if_database_mysql",
    Tok.text "\n    \n    ",
    Tok.marker "/if_database_postgresql",
    Tok.text "\n    # Check PostgreSQL connection\n    log(\x27\\nDatabase Connection:\x27, \x27BLUE\x27)\n    database_url = os.environ.get(\x27DATABASE_URL\x27)\n    if database_url:\n        try:\n            import psycopg2\n            conn = psycopg2.connect(database_url)\n            cur = conn.cursor()\n            cur.execute(\x27SELECT 1\x27)\n            log(f\"\x7bcheckmark()\x7d PostgreSQL connection successful\")\n            cur.close()\n            conn.close()\n        except Exception as e:\n            log(f\"\x7bcrossmark()\x7d PostgreSQL connection failed: \x7bstr(e)\x7d\")\n            all_checks_pass = False\n    else:\n        log(f\"\x7bcrossmark()\x7d DATABASE_URL not configured\")\n        all_checks_pass = False\n    "] ++ hcAcc8

def hcAcc10 : List Tok :=
  [Tok.marker "/if_database_mysql",
    Tok.text "\n    # Check MySQL connection\n    log(\x27\\nDatabase Connection:\x27, \x27BLUE\x27)\n    mysql_host = os.environ.get(\x27MYSQL_HOST\x27)\n    mysql_user = os.environ.get(\x27MYSQL_USER\x27)\n    if mysql_host and mysql_user:\n        try:\n            import mysql.connector\n            conn = mysql.connector.connect(\n                host=mysql_host,\n                user=mysql_user,\n                password=os.environ.get(\x27MYSQL_PASSWORD\x27, \x27\x27),\n                database=os.environ.get(\x27MYSQL_DATABASE\x27)\n            )\n            cursor = conn.cursor()\n            cursor.execute(\"SELECT 1\")\n            log(f\"\x7bcheckmark()\x7d MySQL connection successful\")\n            cursor.close()\n            conn.close()\n        except Exception as e:\n            log(f\"\x7bcrossmark()\x7d MySQL connection failed: \x7bstr(e)\x7d\")\n            all_checks_pass = False\n    else:\n        log(f\"\x7bcrossmark()\x7d MySQL connection not configured\")\n        all_checks_pass = False\n    "] ++ hcAcc9

def hcAcc11 : List Tok :=
  [Tok.marker ".Status",
    Tok.text "\\t",
    Tok.marker ".Names",
    Tok.text "\n    # Check Docker services\n    log(\x27\\nDocker Services:\x27, \x27BLUE\x27)\n    try:\n        result = subprocess.run(\n            [\x27docker\x27, \x27ps\x27, \x27--format\x27, \x27table ",
    Tok.marker "#if_docker_required",
    Tok.text "\n    \n    "] ++ hcAcc10

def hcAcc12 : List Tok :=
  [Tok.marker "/each",
    Tok.text "\x27,\n            ",
    Tok.marker "container_name",
    Tok.text "\n            \x27",
    Tok.marker "#each DOCKER_SERVICES",
    Tok.text "\x27],\n            capture_output=True, text=True, check=True\n        )\n        running_containers = [line for line in result.stdout.split(\x27\\n\x27)[1:] if line.strip()]\n        \n        expected_containers = [\n            "] ++ hcAcc11

def hcAcc13 : List Tok :=
  [Tok.marker "#if_language_python",
    Tok.text "\n    \n    # Check dependencies\n    log(\x27\\nDependencies:\x27, \x27BLUE\x27)\n    ",
    Tok.marker "/if_docker_required",
    Tok.text "\n        ]\n        \n        for container in expected_containers:\n            is_running = any(container in line for line in running_containers)\n            if is_running:\n                log(f\"\x7bcheckmark()\x7d \x7bcontainer\x7d is running\")\n            else:\n                log(f\"\x7bcrossmark()\x7d \x7bcontainer\x7d is not running\")\n                all_checks_pass = False\n    except Exception as e:\n        log(f\"\x7bwarning()\x7d Could not check Docker services: \x7bstr(e)\x7d\", \x27YELLOW\x27)\n    "] ++ hcAcc12

def hcAcc14 : List Tok :=
  [Tok.marker "/if_language_python",
    Tok.text "\n    if Path(\x27requirements.txt\x27).exists():\n        try:\n            result = subprocess.run(\n                [sys.executable, \x27-m\x27, \x27pip\x27, \x27list\x27, \x27--format\x27, \x27json\x27],\n                capture_output=True, text=True, check=True\n            )\n            installed_packages = json.loads(result.stdout)\n            log(f\"\x7bcheckmark()\x7d Dependencies installed (\x7blen(installed_packages)\x7d packages)\")\n        except Exception:\n            log(f\"\x7bcrossmark()\x7d Could not check installed packages\")\n            all_checks_pass = False\n    else:\n        log(f\"\x7bwarning()\x7d requirements.txt not found\", \x27YELLOW\x27)\n    \n    # Check virtual environment\n    if hasattr(sys, \x27real_prefix\x27) or (hasattr(sys, \x27base_prefix\x27) and sys.base_prefix != sys.prefix):\n        log(f\"\x7bcheckmark()\x7d Running in virtual environment\")\n    else:\n        log(f\"\x7bwarning()\x7d Not running in virtual environment\", \x27YELLOW\x27)\n    "] ++ hcAcc13

def hcAcc15 : List Tok :=
  [Tok.marker "/each",
    Tok.text ": \x7bstr(e)\x7d\")\n        all_checks_pass = False\n    ",
    Tok.marker "failure_message",
    Tok.text "\")\n    except Exception as e:\n        log(f\"\x7bcrossmark()\x7d ",
    Tok.marker "success_message",
    Tok.text "\n        log(f\"\x7bcheckmark()\x7d ",
    Tok.marker "check_code",
    Tok.text "\n    try:\n        ",
    Tok.marker "#each CUSTOM_HEALTH_CHECKS",
    Tok.text "\n    \n    # Custom health checks\n    "] ++ hcAcc14

/-- Scanner states at the segment boundaries. -/
def hcState1 : SState := ⟨hcAcc1, SMode.plain ("roloC #\n\nhtaP tropmi bilhtap morf\nnosj tropmi\nssecorpbus tropmi\nsys tropmi\nso tropmi\n\n\"\"\"\ntcejorp " : String).data⟩
def hcState2 : SState := ⟨hcAcc1, SMode.plain ("ramkcehc fed\n\n)\"\x7dTESER.sroloC\x7b\x7degassem\x7b\x7dedoc_roloc\x7b\"f(tnirp    \n)TESER.sroloC ,roloc ,sroloC(rttateg = edoc_roloc    \n:)\x27TESER\x27=roloc ,egassem(gol fed\n\n\x27m43[330\\\x27 = EULB    \n\x27m33[330\\\x27 = WOLLEY    \n\x27m23[330\\\x27 = NEERG    \n\x27m13[330\\\x27 = DER    \n\x27m0[330\\\x27 = TESER    \n:sroloC ssalc\ntuptuo rof sroloC #\n\nhtaP tropmi bilhtap morf\nnosj tropmi\nssecorpbus tropmi\nsys tropmi\nso tropmi\n\n\"\"\"\ntcejorp " : String).data⟩
def hcState3 : SState := ⟨hcAcc1, SMode.plain ("cehC #    \n    \neurT = ssap_skcehc_lla    \n    \n)\x27EULB\x27 ,\x27n\\...kcehc htlaeh gninnuR 🏥\x27(gol    \n:)(tnemnorivne_kcehc fed\n\n\"\x7dTESER.sroloC\x7b⚠\x7dWOLLEY.sroloC\x7b\"f nruter    \n:)(gninraw fed\n\n\"\x7dTESER.sroloC\x7b✗\x7dDER.sroloC\x7b\"f nruter    \n:)(kramssorc fed\n\n\"\x7dTESER.sroloC\x7b✓\x7dNEERG.sroloC\x7b\"f nruter    \n:)(kramkcehc fed\n\n)\"\x7dTESER.sroloC\x7b\x7degassem\x7b\x7dedoc_roloc\x7b\"f(tnirp    \n)TESER.sroloC ,roloc ,sroloC(rttateg = edoc_roloc    \n:)\x27TESER\x27=roloc ,egassem(gol fed\n\n\x27m43[330\\\x27 = EULB    \n\x27m33[330\\\x27 = WOLLEY    \n\x27m23[330\\\x27 = NEERG    \n\x27m13[330\\\x27 = DER    \n\x27m0[330\\\x27 = TESER    \n:sroloC ssalc\ntuptuo rof sroloC #\n\nhtaP tropmi bilhtap morf\nnosj tropmi\nssecorpbus tropmi\nsys tropmi\nso tropmi\n\n\"\"\"\ntcejorp " : String).data⟩
def hcState4 : SState := ⟨hcAcc2, SMode.plain []⟩
def hcState5 : SState := ⟨hcAcc3, SMode.plain []⟩
def hcState6 : SState := ⟨hcAcc4, SMode.plain ("#    \n    \neslaF = ssap_skcehc_lla            \n)\"tes ton si \x7drav_vne\x7b \x7d)(kramssorc\x7b\"f(gol            \n:esle        \n)\"tes si \x7drav_vne\x7b \x7d)(kramkcehc\x7b\"f(gol            \n:)rav_vne(teg.norivne.so fi        \n:srav_vne_deriuqer ni rav_vne rof    \n    \n]    \n" : String).data⟩
def hcState7 : SState := ⟨hcAcc5, SMode.plain ("kramkcehc\x7b\"f(gol            \n:)(rid_si.)htap_rid(htaP dna )(stsixe.)htap_rid(htaP fi        \n:srid_deriuqer ni htap_rid rof    \n    \n]    \n" : String).data⟩
def hcState8 : SState := ⟨hcAcc6, SMode.plain ("lif_deriuqer ni htap_elif rof    \n    \n]    \n" : String).data⟩
def hcState9 : SState := ⟨hcAcc7, SMode.plain ("abataDn\\\x27(gol    \nnoitcennoc BDognoM kcehC #    \n" : String).data⟩
def hcState10 : SState := ⟨hcAcc7, SMode.plain ("ehc\x7b\"f(gol            \n)\x27gnip\x27(dnammoc.nimda.tneilc            \n)0005=SMtuoemiTnoitceleSrevres ,iru_bdognom(tneilCognoM = tneilc            \ntneilCognoM tropmi ognomyp morf            \n:yrt        \n:iru_bdognom fi    \n)\x27IRU_BDOGNOM\x27(teg.norivne.so = iru_bdognom    \n)\x27EULB\x27 ,\x27:noitcennoC esabataDn\\\x27(gol    \nnoitcennoc BDognoM kcehC #    \n" : String).data⟩
def hcState11 : SState := ⟨hcAcc7, SMode.plain ("kcehc_lla        \n)\"derugifnoc ton IRU_BDOGNOM \x7d)(kramssorc\x7b\"f(gol        \n:esle    \neslaF = ssap_skcehc_lla            \n)\"\x7d)e(rts\x7b :deliaf noitcennoc BDognoM \x7d)(kramssorc\x7b\"f(gol            \n:e sa noitpecxE tpecxe        \n)(esolc.tneilc            \n)\"lufsseccus noitcennoc BDognoM \x7d)(kramkcehc\x7b\"f(gol            \n)\x27gnip\x27(dnammoc.nimda.tneilc            \n)0005=SMtuoemiTnoitceleSrevres ,iru_bdognom(tneilCognoM = tneilc            \ntneilCognoM tropmi ognomyp morf            \n:yrt        \n:iru_bdognom fi    \n)\x27IRU_BDOGNOM\x27(teg.norivne.so = iru_bdognom    \n)\x27EULB\x27 ,\x27:noitcennoC esabataDn\\\x27(gol    \nnoitcennoc BDognoM kcehC #    \n" : String).data⟩
def hcState12 : SState := ⟨hcAcc8, SMode.plain ("sp = nnoc            \n2gpocysp tropmi            \n:yrt        \n:lru_esabatad fi    \n)\x27LRU_ESABATAD\x27(teg.norivne.so = lru_esabatad    \n)\x27EULB\x27 ,\x27:noitcennoC esabataDn\\\x27(gol    \nnoitcennoc LQSergtsoP kcehC #    \n" : String).data⟩
def hcState13 : SState := ⟨hcAcc8, SMode.plain ("noc LQSergtsoP \x7d)(kramssorc\x7b\"f(gol            \n:e sa noitpecxE tpecxe        \n)(esolc.nnoc            \n)(esolc.ruc            \n)\"lufsseccus noitcennoc LQSergtsoP \x7d)(kramkcehc\x7b\"f(gol            \n)\x271 TCELES\x27(etucexe.ruc            \n)(rosruc.nnoc = ruc            \n)lru_esabatad(tcennoc.2gpocysp = nnoc            \n2gpocysp tropmi            \n:yrt        \n:lru_esabatad fi    \n)\x27LRU_ESABATAD\x27(teg.norivne.so = lru_esabatad    \n)\x27EULB\x27 ,\x27:noitcennoC esabataDn\\\x27(gol    \nnoitcennoc LQSergtsoP kcehC #    \n" : String).data⟩
def hcState14 : SState := ⟨hcAcc9, SMode.plain (" ,\x27:noitcennoC esabataDn\\\x27(gol    \nnoitcennoc LQSyM kcehC #    \n" : String).data⟩
def hcState15 : SState := ⟨hcAcc9, SMode.plain ("resu_lqsym=resu                \n,tsoh_lqsym=tsoh                \n(tcennoc.rotcennoc.lqsym = nnoc            \nrotcennoc.lqsym tropmi            \n:yrt        \n:resu_lqsym dna tsoh_lqsym fi    \n)\x27RESU_LQSYM\x27(teg.norivne.so = resu_lqsym    \n)\x27TSOH_LQSYM\x27(teg.norivne.so = tsoh_lqsym    \n)\x27EULB\x27 ,\x27:noitcennoC esabataDn\\\x27(gol    \nnoitcennoc LQSyM kcehC #    \n" : String).data⟩
def hcState16 : SState := ⟨hcAcc9, SMode.plain ("osruc            \n)\"lufsseccus noitcennoc LQSyM \x7d)(kramkcehc\x7b\"f(gol            \n)\"1 TCELES\"(etucexe.rosruc            \n)(rosruc.nnoc = rosruc            \n)            \n)\x27ESABATAD_LQSYM\x27(teg.norivne.so=esabatad                \n,)\x27\x27 ,\x27DROWSSAP_LQSYM\x27(teg.norivne.so=drowssap                \n,resu_lqsym=resu                \n,tsoh_lqsym=tsoh                \n(tcennoc.rotcennoc.lqsym = nnoc            \nrotcennoc.lqsym tropmi            \n:yrt        \n:resu_lqsym dna tsoh_lqsym fi    \n)\x27RESU_LQSYM\x27(teg.norivne.so = resu_lqsym    \n)\x27TSOH_LQSYM\x27(teg.norivne.so = tsoh_lqsym    \n)\x27EULB\x27 ,\x27:noitcennoC esabataDn\\\x27(gol    \nnoitcennoc LQSyM kcehC #    \n" : String).data⟩
def hcState17 : SState := ⟨hcAcc10, SMode.plain []⟩
def hcState18 : SState := ⟨hcAcc11, SMode.plain ("        \n)        \neurT=kcehc ,eurT=txet ,eurT=tuptuo_erutpac            \n,]\x27" : String).data⟩
def hcState19 : SState := ⟨hcAcc12, SMode.plain ("    \n:sreniatnoc_detcepxe ni reniatnoc rof        \n        \n]        \n" : String).data⟩
def hcState20 : SState := ⟨hcAcc12, SMode.plain ("    \neslaF = ssap_skcehc_lla                \n)\"gninnur ton si \x7dreniatnoc\x7b \x7d)(kramssorc\x7b\"f(gol                \n:esle            \n)\"gninnur si \x7dreniatnoc\x7b \x7d)(kramkcehc\x7b\"f(gol                \n:gninnur_si fi            \n)sreniatnoc_gninnur ni enil rof enil ni reniatnoc(yna = gninnur_si            \n:sreniatnoc_detcepxe ni reniatnoc rof        \n        \n]        \n" : String).data⟩
def hcState21 : SState := ⟨hcAcc13, SMode.plain ("           \n:yrt        \n:)(stsixe.)\x27txt.stnemeriuqer\x27(htaP fi    \n" : String).data⟩
def hcState22 : SState := ⟨hcAcc13, SMode.plain ("l\x7b( dellatsni seicnednepeD \x7d)(kramkcehc\x7b\"f(gol            \n)tuodts.tluser(sdaol.nosj = segakcap_dellatsni            \n)            \neurT=kcehc ,eurT=txet ,eurT=tuptuo_erutpac                \n,]\x27nosj\x27 ,\x27tamrof--\x27 ,\x27tsil\x27 ,\x27pip\x27 ,\x27m-\x27 ,elbatucexe.sys[                \n(nur.ssecorpbus = tluser            \n:yrt        \n:)(stsixe.)\x27txt.stnemeriuqer\x27(htaP fi    \n" : String).data⟩
def hcState23 : SState := ⟨hcAcc13, SMode.plain ("asah fi    \ntnemnorivne lautriv kcehC #    \n    \n)\x27WOLLEY\x27 ,\"dnuof ton txt.stnemeriuqer \x7d)(gninraw\x7b\"f(gol        \n:esle    \neslaF = ssap_skcehc_lla            \n)\"segakcap dellatsni kcehc ton dluoC \x7d)(kramssorc\x7b\"f(gol            \n:noitpecxE tpecxe        \n)\")segakcap \x7d)segakcap_dellatsni(nel\x7b( dellatsni seicnednepeD \x7d)(kramkcehc\x7b\"f(gol            \n)tuodts.tluser(sdaol.nosj = segakcap_dellatsni            \n)            \neurT=kcehc ,eurT=txet ,eurT=tuptuo_erutpac                \n,]\x27nosj\x27 ,\x27tamrof--\x27 ,\x27tsil\x27 ,\x27pip\x27 ,\x27m-\x27 ,elbatucexe.sys[                \n(nur.ssecorpbus = tluser            \n:yrt        \n:)(stsixe.)\x27txt.stnemeriuqer\x27(htaP fi    \n" : String).data⟩
def hcState24 : SState := ⟨hcAcc14, SMode.plain ("c htlaeh motsuC #    \n    \n" : String).data⟩
def hcState25 : SState := ⟨hcAcc15, SMode.plain (" + \x27n\\\x27(gol    \nyrammuS #    \n    \n" : String).data⟩
def hcState26 : SState := ⟨hcAcc15, SMode.plain ("WOLLEY\x27 ,\x27.gnideecorp erofeb evoba seussi eht xif esaelPn\\\x27(gol        \n)\x27DER\x27 ,\x27deliaf skcehc htlaeh emoS ❌\x27(gol        \n:esle    \n)\x27NEERG\x27 ,\x27.ydaer si tnemnorivne tnempoleved ruoYn\\\x27(gol        \n)\x27NEERG\x27 ,\x27!dessap skcehc htlaeh llA 🎉\x27(gol        \n:ssap_skcehc_lla fi    \n)\x27EULB\x27 ,05 * \x27=\x27 + \x27n\\\x27(gol    \nyrammuS #    \n    \n" : String).data⟩
def hcState27 : SState := ⟨hcAcc15, SMode.plain ("nippiks ,dellatsni ton vnetod-nohtyp \x7d)(gninraw\x7b\"f(gol            \n:rorrEtropmI tpecxe        \n)(vnetod_daol            \nvnetod_daol tropmi vnetod morf            \n:yrt        \n:)(stsixe.)\x27vne.\x27(htaP fi    \nstsixe vne. fi selbairav tnemnorivne daoL #    \n:)(niam fed\n\n)1(tixe.sys        \n)\x27WOLLEY\x27 ,\x27.gnideecorp erofeb evoba seussi eht xif esaelPn\\\x27(gol        \n)\x27DER\x27 ,\x27deliaf skcehc htlaeh emoS ❌\x27(gol        \n:esle    \n)\x27NEERG\x27 ,\x27.ydaer si tnemnorivne tnempoleved ruoYn\\\x27(gol        \n)\x27NEERG\x27 ,\x27!dessap skcehc htlaeh llA 🎉\x27(gol        \n:ssap_skcehc_lla fi    \n)\x27EULB\x27 ,05 * \x27=\x27 + \x27n\\\x27(gol    \nyrammuS #    \n    \n" : String).data⟩
def hcState28 : SState := ⟨hcAcc15, SMode.plain (")(niam    \n:\x27__niam__\x27 == __eman__ fi\n\n)1(tixe.sys        \n)e(tnirp        \n)\x27DER\x27 ,\":rorre htiw deliaf kcehc htlaeH \x7d)(kramssorc\x7bn\\\"f(gol        \n:e sa noitpecxE tpecxe    \n)(tnemnorivne_kcehc        \n:yrt    \n    \n)\x27WOLLEY\x27 ,\"elif vne. gnippiks ,dellatsni ton vnetod-nohtyp \x7d)(gninraw\x7b\"f(gol            \n:rorrEtropmI tpecxe        \n)(vnetod_daol            \nvnetod_daol tropmi vnetod morf            \n:yrt        \n:)(stsixe.)\x27vne.\x27(htaP fi    \nstsixe vne. fi selbairav tnemnorivne daoL #    \n:)(niam fed\n\n)1(tixe.sys        \n)\x27WOLLEY\x27 ,\x27.gnideecorp erofeb evoba seussi eht xif esaelPn\\\x27(gol        \n)\x27DER\x27 ,\x27deliaf skcehc htlaeh emoS ❌\x27(gol        \n:esle    \n)\x27NEERG\x27 ,\x27.ydaer si tnemnorivne tnempoleved ruoYn\\\x27(gol        \n)\x27NEERG\x27 ,\x27!dessap skcehc htlaeh llA 🎉\x27(gol        \n:ssap_skcehc_lla fi    \n)\x27EULB\x27 ,05 * \x27=\x27 + \x27n\\\x27(gol    \nyrammuS #    \n    \n" : String).data⟩


/-- The full token stream of the shipped template. -/
def hcToks : List Tok := finalize hcState28
/-- Decidable checks on the parsed shipped template: it parses, the two
Docker-format brace pairs sit as literal text on the spine inside the
docker conditional, and neither invalid content ever becomes a referenced
context name. -/
def hcChecks : Bool :=
  match parseTokens hcToks with
  | none => false
  | some ast =>
    spineHasTextUnder dotNamesLit ["docker_required"] ast
    && spineHasTextUnder dotStatusLit ["docker_required"] ast
    && !(decide ((".Names" : String) ∈ refNames ast))
    && !(decide ((".Status" : String) ∈ refNames ast))
/-- Rebuilding a string from its character data is the identity. -/
theorem strMkData : ∀ (t : String), String.mk t.data = t
  | ⟨_⟩ => rfl

/-- Appending the empty string is the identity. -/
theorem strAppendEmpty : ∀ (s : String), s ++ "" = s
  | ⟨l⟩ => congrArg String.mk (List.append_nil l)

/-- The character data of a concatenation is the concatenation of the
character data. -/
theorem strDataAppend : ∀ (a b : String), (a ++ b).data = a.data ++ b.data
  | ⟨_⟩, ⟨_⟩ => rfl

/-- A pattern at the head of a list stays at the head after appending. -/
theorem patHead_append : ∀ (pat a b : List Char),
    patHead pat a = true → patHead pat (a ++ b) = true := by
  intro pat
  induction pat with
  | nil => intro a b _; rfl
  | cons p ps ih =>
    intro a b h
    cases a with
    | nil => simp [patHead] at h
    | cons c cs =>
      simp only [patHead, Bool.and_eq_true] at h
      simp only [List.cons_append, patHead, Bool.and_eq_true]
      exact ⟨h.1, ih cs b h.2⟩

/-- The empty pattern occurs in every list. -/
theorem patIn_nil_pat : ∀ (l : List Char), patIn [] l = true := by
  intro l
  cases l <;> simp [patIn, patHead]

/-- A pattern occurring in `a` occurs in `a ++ b`. -/
theorem patIn_append_left : ∀ (pat a b : List Char),
    patIn pat a = true → patIn pat (a ++ b) = true := by
  intro pat a
  induction a with
  | nil =>
    intro b h
    cases pat with
    | nil => exact patIn_nil_pat b
    | cons p ps => simp [patIn, patHead] at h
  | cons c cs ih =>
    intro b h
    simp only [patIn, Bool.or_eq_true] at h
    simp only [List.cons_append, patIn, Bool.or_eq_true]
    cases h with
    | inl hh => exact Or.inl (patHead_append pat (c :: cs) b hh)
    | inr ht => exact Or.inr (ih b ht)

/-- A pattern occurring in `b` occurs in `a ++ b`. -/
theorem patIn_append_right : ∀ (pat b a : List Char),
    patIn pat b = true → patIn pat (a ++ b) = true := by
  intro pat b a
  induction a with
  | nil => intro h; exact h
  | cons c cs ih =>
    intro h
    simp only [List.cons_append, patIn, Bool.or_eq_true]
    exact Or.inr (ih h)

/-- Errors of an iteration come from the body renderer. -/
theorem goElems_err (f : Context → Except RenderError String) (ns : List String)
    (hf : ∀ ctx e, f ctx = Except.error e →
      ∃ x, e = RenderError.undefinedVariable x ∧ x ∈ ns) :
    ∀ (elems : List Elem) (ctx : Context) (e : RenderError),
      goElems f ctx elems = Except.error e →
      ∃ x, e = RenderError.undefinedVariable x ∧ x ∈ ns := by
  intro elems
  induction elems with
  | nil => intro ctx e h; simp [goElems] at h
  | cons el rest ih =>
    intro ctx e h
    simp only [goElems] at h
    cases hfe : f (extendCtx el ctx) with
    | error er =>
      simp only [hfe] at h
      injection h with h2
      subst h2
      exact hf _ _ hfe
    | ok s =>
      simp only [hfe] at h
      cases hge : goElems f ctx rest with
      | error er =>
        simp only [hge] at h
        injection h with h2
        subst h2
        exact ih _ _ hge
      | ok t => simp only [hge] at h; exact Except.noConfusion h

/-- Every rendering error is an undefined variable, and its name is one the
AST references. -/
theorem renderNode_err : ∀ (n : Node) (ctx : Context) (e : RenderError),
    renderNode n ctx = Except.error e →
    ∃ x, e = RenderError.undefinedVariable x ∧ x ∈ refNames n := by
  intro n
  induction n with
  | text s => intro ctx e h; simp [renderNode] at h
  | interp nm =>
    intro ctx e h
    simp only [renderNode] at h
    cases hl : lookupCtx ctx nm with
    | some v => simp only [hl] at h; exact Except.noConfusion h
    | none =>
      simp only [hl] at h
      injection h with h2
      subst h2
      exact ⟨nm, rfl, by simp [refNames]⟩
  | cond f body ih =>
    intro ctx e h
    simp only [renderNode] at h
    cases hl : lookupCtx ctx f with
    | some v =>
      simp only [hl] at h
      cases htv : v.truthy with
      | true =>
        simp only [htv] at h
        obtain ⟨x, hx, hmem⟩ := ih ctx e h
        exact ⟨x, hx, by simp [refNames, hmem]⟩
      | false => simp only [htv] at h; exact Except.noConfusion h
    | none =>
      simp only [hl] at h
      injection h with h2
      subst h2
      exact ⟨f, rfl, by simp [refNames]⟩
  | iter l body ih =>
    intro ctx e h
    simp only [renderNode] at h
    cases hl : lookupCtx ctx l with
    | some v =>
      simp only [hl] at h
      cases v with
      | listV elems =>
        obtain ⟨x, hx, hmem⟩ := goElems_err (renderNode body) (refNames body) ih elems ctx e h
        exact ⟨x, hx, by simp [refNames, hmem]⟩
      | str s => injection h with h2; subst h2; exact ⟨l, rfl, by simp [refNames]⟩
      | boolV b => injection h with h2; subst h2; exact ⟨l, rfl, by simp [refNames]⟩
      | recV fs => injection h with h2; subst h2; exact ⟨l, rfl, by simp [refNames]⟩
    | none =>
      simp only [hl] at h
      injection h with h2
      subst h2
      exact ⟨l, rfl, by simp [refNames]⟩
  | seq a b iha ihb =>
    intro ctx e h
    simp only [renderNode] at h
    cases hra : renderNode a ctx with
    | error e1 =>
      simp only [hra] at h
      injection h with h2
      subst h2
      obtain ⟨x, hx, hmem⟩ := iha ctx _ hra
      exact ⟨x, hx, by simp [refNames, hmem]⟩
    | ok sa =>
      simp only [hra] at h
      cases hrb : renderNode b ctx with
      | error e2 =>
        simp only [hrb] at h
        injection h with h2
        subst h2
        obtain ⟨x, hx, hmem⟩ := ihb ctx _ hrb
        exact ⟨x, hx, by simp [refNames, hmem]⟩
      | ok sb => simp only [hrb] at h; exact Except.noConfusion h
  | empty => intro ctx e h; simp [renderNode] at h

/-- Literal text on the spine (descending only into conditionals whose flags
are truthy in the context) survives into every successful rendering. -/
theorem spine_render (pat : String) (flags : List String) :
    ∀ (n : Node) (ctx : Context) (s : String),
      (∀ f, f ∈ flags → ∃ v, lookupCtx ctx f = some v ∧ Value.truthy v = true) →
      spineHasTextUnder pat flags n = true →
      renderNode n ctx = Except.ok s →
      patIn pat.data s.data = true := by
  intro n
  induction n with
  | text t =>
    intro ctx s _ hsp hr
    simp only [renderNode, Except.ok.injEq] at hr
    subst hr
    simpa [spineHasTextUnder] using hsp
  | interp nm => intro ctx s _ hsp _; simp [spineHasTextUnder] at hsp
  | cond f body ih =>
    intro ctx s hf hsp hr
    simp only [spineHasTextUnder, Bool.and_eq_true, decide_eq_true_eq] at hsp
    obtain ⟨hmem, hspb⟩ := hsp
    obtain ⟨v, hv, htv⟩ := hf f hmem
    simp only [renderNode, hv, htv] at hr
    exact ih ctx s hf hspb hr
  | iter l body _ => intro ctx s _ hsp _; simp [spineHasTextUnder] at hsp
  | seq a b iha ihb =>
    intro ctx s hf hsp hr
    simp only [renderNode] at hr
    cases hra : renderNode a ctx with
    | error e => simp only [hra] at hr; exact Except.noConfusion hr
    | ok sa =>
      simp only [hra] at hr
      cases hrb : renderNode b ctx with
      | error e => simp only [hrb] at hr; exact Except.noConfusion hr
      | ok sb =>
        simp only [hrb] at hr
        injection hr with hr2
        subst hr2
        simp only [spineHasTextUnder, Bool.or_eq_true] at hsp
        rw [strDataAppend]
        cases hsp with
        | inl h1 => exact patIn_append_left pat.data sa.data sb.data (iha ctx sa hf h1 hra)
        | inr h2 => exact patIn_append_right pat.data sb.data sa.data (ihb ctx sb hf h2 hrb)
  | empty => intro ctx s _ hsp _; simp [spineHasTextUnder] at hsp
/-- The iteration helper is exactly a monadic map over the elements followed
by concatenation in sequence order. -/
theorem goElems_mapM (f : Context → Except RenderError String) (ctx : Context) :
    ∀ (elems : List Elem),
      goElems f ctx elems
        = (elems.mapM (fun e => f (extendCtx e ctx))).map
            (fun ss => ss.foldr (fun a b => a ++ b) "") := by
  intro elems
  induction elems with
  | nil => rfl
  | cons el rest ih =>
    rw [List.mapM_cons]
    simp only [goElems, ih]
    cases hfe : f (extendCtx el ctx) with
    | error er => simp only [hfe]; rfl
    | ok s =>
      simp only [hfe]
      cases hge : rest.mapM (fun e => f (extendCtx e ctx)) with
      | error er => rfl
      | ok ss => rfl

/-- Looking up a key bound by the record-field bindings yields the field's
string value. -/
theorem lookup_mapfs : ∀ (fs : List (String × String)) (rest : Context) (k v : String),
    List.lookup k fs = some v →
    lookupCtx (fs.map (fun p => (p.1, Value.str p.2)) ++ rest) k = some (Value.str v) := by
  intro fs
  induction fs with
  | nil => intro rest k v h; simp [List.lookup] at h
  | cons p fs ih =>
    intro rest k v h
    obtain ⟨k1, v1⟩ := p
    simp only [List.lookup] at h
    cases hbe : k == k1 with
    | true =>
      rw [hbe] at h
      injection h with h2
      subst h2
      have hk : k = k1 := eq_of_beq hbe
      subst hk
      simp [lookupCtx]
    | false =>
      rw [hbe] at h
      have hk : ¬ k1 = k := fun he => by simp [he] at hbe
      simp only [List.map_cons, List.cons_append, lookupCtx, if_neg hk]
      exact ih rest k v h

/-- Inside an iteration body over a scalar element, `this` resolves to the
element. -/
theorem lookup_extend_scalar (s : String) (ctx : Context) :
    lookupCtx (extendCtx (Elem.scalar s) ctx) "this" = some (Value.str s) := by
  simp [extendCtx, elemBindings, lookupCtx]

/-- Inside an iteration body over a record element, each named field resolves
to its value. -/
theorem lookup_extend_record (fs : List (String × String)) (ctx : Context)
    (k v : String) (h : List.lookup k fs = some v) :
    lookupCtx (extendCtx (Elem.record fs) ctx) k = some (Value.str v) := by
  unfold extendCtx elemBindings
  rw [List.append_assoc]
  exact lookup_mapfs fs _ k v h

/-- The parser only consumes tokens: the unparsed remainder is no longer than
the input. -/
theorem parseB_consumes : ∀ (fuel : Nat) (toks : List Tok) (stop : Stop)
    (n : Node) (rest : List Tok),
    parseB fuel toks stop = some (n, rest) → rest.length ≤ toks.length := by
  intro fuel
  induction fuel with
  | zero => intro toks stop n rest h; simp [parseB] at h
  | succ fuel ih =>
    intro toks stop n rest h
    cases toks with
    | nil =>
      cases stop with
      | top =>
        simp only [parseB] at h
        injection h with h2
        injection h2 with h3 h4
        subst h4
        exact Nat.le_refl 0
      | inIf f => simp [parseB] at h
      | inEach => simp [parseB] at h
    | cons t toks' =>
      cases t with
      | text s =>
        simp only [parseB] at h
        cases hp : parseB fuel toks' stop with
        | none => simp [hp] at h
        | some pr =>
          obtain ⟨n', r'⟩ := pr
          simp only [hp] at h
          injection h with h2
          injection h2 with h3 h4
          subst h4
          exact Nat.le_succ_of_le (ih toks' stop n' r' hp)
      | marker content =>
        simp only [parseB] at h
        cases hcl : classify content.data with
        | invalid =>
          simp only [hcl] at h
          cases hp : parseB fuel toks' stop with
          | none => simp [hp] at h
          | some pr =>
            obtain ⟨n', r'⟩ := pr
            simp only [hp] at h
            injection h with h2
            injection h2 with h3 h4
            subst h4
            exact Nat.le_succ_of_le (ih toks' stop n' r' hp)
        | interp name =>
          simp only [hcl] at h
          cases hp : parseB fuel toks' stop with
          | none => simp [hp] at h
          | some pr =>
            obtain ⟨n', r'⟩ := pr
            simp only [hp] at h
            injection h with h2
            injection h2 with h3 h4
            subst h4
            exact Nat.le_succ_of_le (ih toks' stop n' r' hp)
        | openIf flag =>
          simp only [hcl] at h
          cases hp : parseB fuel toks' (Stop.inIf flag) with
          | none => simp [hp] at h
          | some pr =>
            obtain ⟨body, rest1⟩ := pr
            simp only [hp] at h
            cases hq : parseB fuel rest1 stop with
            | none => simp [hq] at h
            | some qr =>
              obtain ⟨tail, rest2⟩ := qr
              simp only [hq] at h
              injection h with h2
              injection h2 with h3 h4
              subst h4
              have a1 := ih toks' (Stop.inIf flag) body rest1 hp
              have a2 := ih rest1 stop tail rest2 hq
              exact Nat.le_succ_of_le (Nat.le_trans a2 a1)
        | closeIf flag =>
          simp only [hcl] at h
          cases stop with
          | top => simp at h
          | inEach => simp at h
          | inIf f =>
            by_cases hfe : f = flag
            · simp only [if_pos hfe] at h
              injection h with h2
              injection h2 with h3 h4
              subst h4
              exact Nat.le_succ_of_le (Nat.le_refl _)
            · simp [if_neg hfe] at h
        | openEach listName =>
          simp only [hcl] at h
          cases hp : parseB fuel toks' Stop.inEach with
          | none => simp [hp] at h
          | some pr =>
            obtain ⟨body, rest1⟩ := pr
            simp only [hp] at h
            cases hq : parseB fuel rest1 stop with
            | none => simp [hq] at h
            | some qr =>
              obtain ⟨tail, rest2⟩ := qr
              simp only [hq] at h
              injection h with h2
              injection h2 with h3 h4
              subst h4
              have a1 := ih toks' Stop.inEach body rest1 hp
              have a2 := ih rest1 stop tail rest2 hq
              exact Nat.le_succ_of_le (Nat.le_trans a2 a1)
        | closeEach =>
          simp only [hcl] at h
          cases stop with
          | top => simp at h
          | inIf f => simp at h
          | inEach =>
            injection h with h2
            injection h2 with h3 h4
            subst h4
            exact Nat.le_succ_of_le (Nat.le_refl _)

/-- One extra unit of fuel changes nothing once the fuel exceeds the token
count. -/
theorem parseB_fuel_succ : ∀ (fuel : Nat) (toks : List Tok) (stop : Stop),
    toks.length < fuel → parseB fuel toks stop = parseB (fuel + 1) toks stop := by
  intro fuel
  induction fuel with
  | zero => intro toks stop h; exact absurd h (Nat.not_lt_zero _)
  | succ fuel ih =>
    intro toks stop h
    cases toks with
    | nil => rfl
    | cons t toks' =>
      have hlt : toks'.length < fuel := Nat.lt_of_succ_lt_succ h
      cases t with
      | text s =>
        show (match parseB fuel toks' stop with
              | some (n, r) => some (Node.seq (Node.text s) n, r)
              | none => none)
          = (match parseB (fuel + 1) toks' stop with
              | some (n, r) => some (Node.seq (Node.text s) n, r)
              | none => none)
        rw [ih toks' stop hlt]
      | marker content =>
        cases hcl : classify content.data with
        | invalid => simp only [parseB, hcl]; rw [ih toks' stop hlt]
        | interp name => simp only [parseB, hcl]; rw [ih toks' stop hlt]
        | openIf flag =>
          simp only [parseB, hcl]
          rw [ih toks' (Stop.inIf flag) hlt]
          split
          next body rest1 heq =>
            have hr1 : rest1.length ≤ toks'.length :=
              parseB_consumes (fuel + 1) toks' (Stop.inIf flag) body rest1 heq
            rw [ih rest1 stop (Nat.lt_of_le_of_lt hr1 hlt)]
          next heq => rfl
        | closeIf flag => simp [parseB, hcl]
        | openEach listName =>
          simp only [parseB, hcl]
          rw [ih toks' Stop.inEach hlt]
          split
          next body rest1 heq =>
            have hr1 : rest1.length ≤ toks'.length :=
              parseB_consumes (fuel + 1) toks' Stop.inEach body rest1 heq
            rw [ih rest1 stop (Nat.lt_of_le_of_lt hr1 hlt)]
          next heq => rfl
        | closeEach => simp [parseB, hcl]

/-- Any amount of extra fuel changes nothing once the fuel exceeds the token
count. -/
theorem parseB_stable : ∀ (k fuel : Nat) (toks : List Tok) (stop : Stop),
    toks.length < fuel → parseB (fuel + k) toks stop = parseB fuel toks stop := by
  intro k
  induction k with
  | zero => intro fuel toks stop _; rfl
  | succ k ih =>
    intro fuel toks stop h
    have h2 : toks.length < fuel + k := Nat.lt_of_lt_of_le h (Nat.le_add_right fuel k)
    have e1 : parseB ((fuel + k) + 1) toks stop = parseB (fuel + k) toks stop :=
      (parseB_fuel_succ (fuel + k) toks stop h2).symm
    exact e1.trans (ih fuel toks stop h)
/-- Each scanner step raises the potential by at most one. -/
theorem stepPhi : ∀ (s : SState) (c : Char), phi (step s c) ≤ phi s + 1 := by
  intro s c
  obtain ⟨toks, mode⟩ := s
  cases mode with
  | plain run =>
    by_cases hc : c = lbrace
    · cases run <;> simp [phi, step, stepToks, stepMode, modeExtra, hc]
    · cases run <;> simp [phi, step, stepToks, stepMode, modeExtra, hc]
  | sawOpen run =>
    by_cases hc : c = lbrace
    · cases run <;> simp [phi, step, stepToks, stepMode, modeExtra, hc]
    · cases run <;> simp [phi, step, stepToks, stepMode, modeExtra, hc]
  | inMark run buf =>
    by_cases hc : c = rbrace
    · cases run <;> simp [phi, step, stepToks, stepMode, modeExtra, hc]
    · cases run <;> simp [phi, step, stepToks, stepMode, modeExtra, hc]
  | sawClose run buf =>
    by_cases hc : c = rbrace
    · cases run <;> simp [phi, step, stepToks, stepMode, modeExtra, runToks, hc]
    · cases run <;> simp [phi, step, stepToks, stepMode, modeExtra, hc]

/-- Folding the scanner over a character list raises the potential by at most
the number of characters. -/
theorem foldPhi : ∀ (cs : List Char) (s : SState),
    phi (List.foldl step s cs) ≤ phi s + cs.length := by
  intro cs
  induction cs with
  | nil => intro s; simp
  | cons c cs ih =>
    intro s
    have h1 := ih (step s c)
    have h2 := stepPhi s c
    simp only [List.foldl_cons, List.length_cons]
    omega

/-- Flushing the final scanner state yields at most the potential's worth of
tokens. -/
theorem finalizeLen : ∀ (s : SState), (finalize s).length ≤ phi s := by
  intro s
  obtain ⟨toks, mode⟩ := s
  cases mode with
  | plain run => cases run <;> simp [finalize, runToks, phi, modeExtra]
  | sawOpen run => cases run <;> simp [finalize, runToks, phi, modeExtra]
  | inMark run buf =>
    cases hb : buf ++ lbrace :: lbrace :: run with
    | nil => simp at hb
    | cons x xs =>
      cases run <;> simp [finalize, hb, runToks, phi, modeExtra]
  | sawClose run buf =>
    cases run <;> simp [finalize, runToks, phi, modeExtra]

/-- The scan of a template yields at most one token per character: the
scanner's work is bounded by the template's size. -/
theorem scan_len (t : String) : (scanTemplate t).length ≤ t.data.length := by
  have h1 := finalizeLen (List.foldl step initState t.data)
  have h2 := foldPhi t.data initState
  have h3 : phi initState = 0 := rfl
  unfold scanTemplate
  omega

/-- Scanning text containing no double open brace leaves the text as one
pending literal run, whether or not a single open brace was just seen. -/
theorem scan_plain_nomarker : ∀ (cs : List Char) (run : List Char) (toks : List Tok),
    patIn [lbrace, lbrace] cs = false →
    (finalize (List.foldl step ⟨toks, SMode.plain run⟩ cs)
      = finalize ⟨toks, SMode.plain (cs.reverse ++ run)⟩)
    ∧ ((cs.head? = some lbrace → False) →
      finalize (List.foldl step ⟨toks, SMode.sawOpen run⟩ cs)
        = finalize ⟨toks, SMode.plain (cs.reverse ++ lbrace :: run)⟩) := by
  intro cs
  induction cs with
  | nil =>
    intro run toks _
    exact ⟨rfl, fun _ => rfl⟩
  | cons c cs ih =>
    intro run toks hp
    have hsplit : patHead [lbrace, lbrace] (c :: cs) = false
        ∧ patIn [lbrace, lbrace] cs = false := by
      have h2 := hp
      simp only [patIn] at h2
      cases hh : patHead [lbrace, lbrace] (c :: cs) <;>
        cases ht : patIn [lbrace, lbrace] cs <;>
          simp [hh, ht] at h2 ⊢
    obtain ⟨hh, ht⟩ := hsplit
    constructor
    · by_cases hc : c = lbrace
      · subst hc
        have hstep : step ⟨toks, SMode.plain run⟩ lbrace = ⟨toks, SMode.sawOpen run⟩ := by
          simp [step, stepToks, stepMode]
        have hhead : cs.head? = some lbrace → False := by
          intro hcs
          cases cs with
          | nil => simp at hcs
          | cons c2 cs2 =>
            simp only [List.head?] at hcs
            injection hcs with hc2
            subst hc2
            simp [patHead] at hh
        rw [List.foldl_cons, hstep, (ih run toks ht).2 hhead]
        simp [List.append_assoc]
      · have hstep : step ⟨toks, SMode.plain run⟩ c = ⟨toks, SMode.plain (c :: run)⟩ := by
          simp [step, stepToks, stepMode, hc]
        rw [List.foldl_cons, hstep, ((ih (c :: run) toks ht).1)]
        simp [List.append_assoc]
    · intro hhead
      have hc : ¬ c = lbrace := by
        intro hce
        exact hhead (by simp [hce])
      have hstep : step ⟨toks, SMode.sawOpen run⟩ c
          = ⟨toks, SMode.plain (c :: lbrace :: run)⟩ := by
        simp [step, stepToks, stepMode, hc]
      rw [List.foldl_cons, hstep, ((ih (c :: lbrace :: run) toks ht).1)]
      simp [List.append_assoc]

/-- Scanning marker content (free of closing braces) followed by the closing
double brace emits exactly one marker token. -/
theorem scan_marker_noclose : ∀ (cs buf run : List Char) (toks : List Tok),
    cs.all (fun c => !(c = rbrace)) = true →
    List.foldl step ⟨toks, SMode.inMark run buf⟩ (cs ++ [rbrace, rbrace])
      = ⟨Tok.marker (String.mk (buf.reverse ++ cs)) :: (runToks run ++ toks), SMode.plain []⟩ := by
  intro cs
  induction cs with
  | nil =>
    intro buf run toks _
    have h1 : step ⟨toks, SMode.inMark run buf⟩ rbrace = ⟨toks, SMode.sawClose run buf⟩ := by
      simp [step, stepToks, stepMode]
    have h2 : step ⟨toks, SMode.sawClose run buf⟩ rbrace
        = ⟨Tok.marker (String.mk buf.reverse) :: (runToks run ++ toks), SMode.plain []⟩ := by
      simp [step, stepToks, stepMode]
    simp only [List.nil_append, List.foldl_cons, List.foldl_nil, h1, h2, List.append_nil]
  | cons c cs ih =>
    intro buf run toks hall
    simp only [List.all_cons, Bool.and_eq_true] at hall
    have hc : ¬ c = rbrace := by
      intro hce
      rw [hce] at hall
      simp at hall
    have hstep : step ⟨toks, SMode.inMark run buf⟩ c = ⟨toks, SMode.inMark run (c :: buf)⟩ := by
      simp [step, stepToks, stepMode, hc]
    rw [List.cons_append, List.foldl_cons, hstep, ih (c :: buf) run toks hall.2]
    simp [List.append_assoc]

/-- Identifier characters exclude the closing brace. -/
theorem ident_no_rbrace (cs : List Char) (h : isIdentL cs = true) :
    cs.all (fun c => !(c = rbrace)) = true := by
  simp only [isIdentL, Bool.and_eq_true] at h
  rw [List.all_eq_true] at h ⊢
  intro c hc
  have hid := h.2 c hc
  have hne : ¬ c = rbrace := by
    intro hce
    rw [hce] at hid
    exact absurd hid (by decide)
  simp [hne]

/-- Valid identifier content classifies as a simple interpolation marker. -/
theorem classify_ident (cs : List Char) (h : isIdentL cs = true) :
    classify cs = MTok.interp (String.mk cs) := by
  have hchar : ∀ c ∈ cs, isIdentChar c = true := by
    simp only [isIdentL, Bool.and_eq_true, List.all_eq_true] at h
    exact h.2
  unfold classify
  split
  · exact absurd (hchar '#' (by simp)) (by decide)
  · exact absurd (hchar '/' (by simp)) (by decide)
  · exact absurd (hchar '#' (by simp)) (by decide)
  · exact absurd (hchar '/' (by simp)) (by decide)
  · rw [h]; rfl

/-- Scanning a single interpolation marker yields a single marker token. -/
theorem scan_markerOf (n : String) (h : isIdentL n.data = true) :
    scanTemplate (markerOf n) = [Tok.marker n] := by
  unfold scanTemplate markerOf
  show finalize (List.foldl step initState
      (lbrace :: lbrace :: (n.data ++ [rbrace, rbrace]))) = _
  have h1 : step initState lbrace = ⟨[], SMode.sawOpen []⟩ := by
    simp [step, initState, stepToks, stepMode]
  have h2 : step ⟨[], SMode.sawOpen []⟩ lbrace = ⟨[], SMode.inMark [] []⟩ := by
    simp [step, stepToks, stepMode]
  rw [List.foldl_cons, h1, List.foldl_cons, h2,
    scan_marker_noclose n.data [] [] [] (ident_no_rbrace n.data h)]
  simp [finalize, runToks, strMkData]
set_option maxRecDepth 40000 in
/-- Concrete scan of segment 1 of the shipped template. -/
theorem hcFold1 : List.foldl step initState hcSeg1.data = hcState1 := rfl

set_option maxRecDepth 40000 in
/-- Concrete scan of segment 2 of the shipped template. -/
theorem hcFold2 : List.foldl step hcState1 hcSeg2.data = hcState2 := rfl

set_option maxRecDepth 40000 in
/-- Concrete scan of segment 3 of the shipped template. -/
theorem hcFold3 : List.foldl step hcState2 hcSeg3.data = hcState3 := rfl

set_option maxRecDepth 40000 in
/-- Concrete scan of segment 4 of the shipped template. -/
theorem hcFold4 : List.foldl step hcState3 hcSeg4.data = hcState4 := rfl

set_option maxRecDepth 40000 in
/-- Concrete scan of segment 5 of the shipped template. -/
theorem hcFold5 : List.foldl step hcState4 hcSeg5.data = hcState5 := rfl

set_option maxRecDepth 40000 in
/-- Concrete scan of segment 6 of the shipped template. -/
theorem hcFold6 : List.foldl step hcState5 hcSeg6.data = hcState6 := rfl

set_option maxRecDepth 40000 in
/-- Concrete scan of segment 7 of the shipped template. -/
theorem hcFold7 : List.foldl step hcState6 hcSeg7.data = hcState7 := rfl

set_option maxRecDepth 40000 in
/-- Concrete scan of segment 8 of the shipped template. -/
theorem hcFold8 : List.foldl step hcState7 hcSeg8.data = hcState8 := rfl

set_option maxRecDepth 40000 in
/-- Concrete scan of segment 9 of the shipped template. -/
theorem hcFold9 : List.foldl step hcState8 hcSeg9.data = hcState9 := rfl

set_option maxRecDepth 40000 in
/-- Concrete scan of segment 10 of the shipped template. -/
theorem hcFold10 : List.foldl step hcState9 hcSeg10.data = hcState10 := rfl

set_option maxRecDepth 40000 in
/-- Concrete scan of segment 11 of the shipped template. -/
theorem hcFold11 : List.foldl step hcState10 hcSeg11.data = hcState11 := rfl

set_option maxRecDepth 40000 in
/-- Concrete scan of segment 12 of the shipped template. -/
theorem hcFold12 : List.foldl step hcState11 hcSeg12.data = hcState12 := rfl

set_option maxRecDepth 40000 in
/-- Concrete scan of segment 13 of the shipped template. -/
theorem hcFold13 : List.foldl step hcState12 hcSeg13.data = hcState13 := rfl

set_option maxRecDepth 40000 in
/-- Concrete scan of segment 14 of the shipped template. -/
theorem hcFold14 : List.foldl step hcState13 hcSeg14.data = hcState14 := rfl

set_option maxRecDepth 40000 in
/-- Concrete scan of segment 15 of the shipped template. -/
theorem hcFold15 : List.foldl step hcState14 hcSeg15.data = hcState15 := rfl

set_option maxRecDepth 40000 in
/-- Concrete scan of segment 16 of the shipped template. -/
theorem hcFold16 : List.foldl step hcState15 hcSeg16.data = hcState16 := rfl

set_option maxRecDepth 40000 in
/-- Concrete scan of segment 17 of the shipped template. -/
theorem hcFold17 : List.foldl step hcState16 hcSeg17.data = hcState17 := rfl

set_option maxRecDepth 40000 in
/-- Concrete scan of segment 18 of the shipped template. -/
theorem hcFold18 : List.foldl step hcState17 hcSeg18.data = hcState18 := rfl

set_option maxRecDepth 40000 in
/-- Concrete scan of segment 19 of the shipped template. -/
theorem hcFold19 : List.foldl step hcState18 hcSeg19.data = hcState19 := rfl

set_option maxRecDepth 40000 in
/-- Concrete scan of segment 20 of the shipped template. -/
theorem hcFold20 : List.foldl step hcState19 hcSeg20.data = hcState20 := rfl

set_option maxRecDepth 40000 in
/-- Concrete scan of segment 21 of the shipped template. -/
theorem hcFold21 : List.foldl step hcState20 hcSeg21.data = hcState21 := rfl

set_option maxRecDepth 40000 in
/-- Concrete scan of segment 22 of the shipped template. -/
theorem hcFold22 : List.foldl step hcState21 hcSeg22.data = hcState22 := rfl

set_option maxRecDepth 40000 in
/-- Concrete scan of segment 23 of the shipped template. -/
theorem hcFold23 : List.foldl step hcState22 hcSeg23.data = hcState23 := rfl

set_option maxRecDepth 40000 in
/-- Concrete scan of segment 24 of the shipped template. -/
theorem hcFold24 : List.foldl step hcState23 hcSeg24.data = hcState24 := rfl

set_option maxRecDepth 40000 in
/-- Concrete scan of segment 25 of the shipped template. -/
theorem hcFold25 : List.foldl step hcState24 hcSeg25.data = hcState25 := rfl

set_option maxRecDepth 40000 in
/-- Concrete scan of segment 26 of the shipped template. -/
theorem hcFold26 : List.foldl step hcState25 hcSeg26.data = hcState26 := rfl

set_option maxRecDepth 40000 in
/-- Concrete scan of segment 27 of the shipped template. -/
theorem hcFold27 : List.foldl step hcState26 hcSeg27.data = hcState27 := rfl

set_option maxRecDepth 40000 in
/-- Concrete scan of segment 28 of the shipped template. -/
theorem hcFold28 : List.foldl step hcState27 hcSeg28.data = hcState28 := rfl



set_option maxRecDepth 40000 in
/-- The single left-to-right scan of the shipped template, assembled from the
per-segment scans. -/
theorem hc_scan : scanTemplate healthCheckTemplate = hcToks := by
  show finalize (List.foldl step initState (hcSeg1 ++ hcSeg2 ++ hcSeg3 ++ hcSeg4 ++ hcSeg5 ++ hcSeg6 ++ hcSeg7 ++ hcSeg8
      ++ hcSeg9 ++ hcSeg10 ++ hcSeg11 ++ hcSeg12 ++ hcSeg13 ++ hcSeg14 ++ hcSeg15 ++ hcSeg16
      ++ hcSeg17 ++ hcSeg18 ++ hcSeg19 ++ hcSeg20 ++ hcSeg21 ++ hcSeg22 ++ hcSeg23 ++ hcSeg24
      ++ hcSeg25 ++ hcSeg26 ++ hcSeg27 ++ hcSeg28).data) = hcToks
  simp only [strDataAppend, List.foldl_append]
  rw [hcFold1, hcFold2, hcFold3, hcFold4, hcFold5, hcFold6, hcFold7, hcFold8, hcFold9, hcFold10, hcFold11, hcFold12, hcFold13, hcFold14, hcFold15, hcFold16, hcFold17, hcFold18, hcFold19, hcFold20, hcFold21, hcFold22, hcFold23, hcFold24, hcFold25, hcFold26, hcFold27, hcFold28]
  rfl
set_option maxRecDepth 40000 in
/-- The decidable checks on the shipped template all hold, by computation. -/
theorem hcChecks_true : hcChecks = true := rfl

/-- Parsing the shipped template goes through its computed token stream. -/
theorem hc_parse : parseTemplate healthCheckTemplate = parseTokens hcToks := by
  unfold parseTemplate
  rw [hc_scan]

/-- A single text token parses to a text node. -/
theorem parseTokens_text (t : String) :
    parseTokens [Tok.text t] = some (Node.seq (Node.text t) Node.empty) := rfl

/-- A single marker token with interpolation content parses to an
interpolation node. -/
theorem parseTokens_marker (content nm : String)
    (hcl : classify content.data = MTok.interp nm) :
    parseTokens [Tok.marker content] = some (Node.seq (Node.interp nm) Node.empty) := by
  unfold parseTokens
  show (match
        (match classify content.data with
         | MTok.invalid =>
           match parseB 1 [] Stop.top with
           | some (n, r) => some (Node.seq (Node.text (mkLiteralMarker content)) n, r)
           | none => none
         | MTok.interp name =>
           match parseB 1 [] Stop.top with
           | some (n, r) => some (Node.seq (Node.interp name) n, r)
           | none => none
         | MTok.openIf flag =>
           match parseB 1 [] (Stop.inIf flag) with
           | some (body, rest1) =>
             match parseB 1 rest1 Stop.top with
             | some (tail, rest2) => some (Node.seq (Node.cond flag body) tail, rest2)
             | none => none
           | none => none
         | MTok.closeIf flag =>
           match Stop.top with
           | Stop.inIf f => if f = flag then some (Node.empty, ([] : List Tok)) else none
           | _ => none
         | MTok.openEach listName =>
           match parseB 1 [] Stop.inEach with
           | some (body, rest1) =>
             match parseB 1 rest1 Stop.top with
             | some (tail, rest2) => some (Node.seq (Node.iter listName body) tail, rest2)
             | none => none
           | none => none
         | MTok.closeEach =>
           match Stop.top with
           | Stop.inEach => some (Node.empty, ([] : List Tok))
           | _ => none)
       with
       | some (n, _) => some n
       | none => none)
      = some (Node.seq (Node.interp nm) Node.empty)
  rw [hcl]
  rfl
/-- Claim C1: when Render reaches a conditional block, a present truthy flag
renders the body recursively with the same context and splices the result in
place; a present falsy flag emits nothing; an absent flag fails with
UndefinedVariable instead of being treated as false. -/
theorem cond_semantics (flag : String) (body : Node) (ctx : Context) :
    (∀ v, lookupCtx ctx flag = some v → Value.truthy v = true →
      renderNode (Node.cond flag body) ctx = renderNode body ctx)
    ∧ (∀ v, lookupCtx ctx flag = some v → Value.truthy v = false →
      renderNode (Node.cond flag body) ctx = Except.ok "")
    ∧ (lookupCtx ctx flag = none →
      renderNode (Node.cond flag body) ctx
        = Except.error (RenderError.undefinedVariable flag)) := by
  refine ⟨?_, ?_, ?_⟩
  · intro v hv htv
    simp [renderNode, hv, htv]
  · intro v hv htv
    simp [renderNode, hv, htv]
  · intro hv
    simp [renderNode, hv]

/-- Witness for C1 at a concrete truthy flag. -/
theorem cond_semantics_w :
    renderNode (Node.cond "X" (Node.interp "N")) [("X", Value.boolV true), ("N", Value.str "v")]
      = renderNode (Node.interp "N") [("X", Value.boolV true), ("N", Value.str "v")] :=
  (cond_semantics "X" (Node.interp "N") [("X", Value.boolV true), ("N", Value.str "v")]).1
    (Value.boolV true) rfl rfl

/-- Claim C2: an iteration block whose list name is bound to a sequence of N
elements expands to exactly the N renderings of its body concatenated in the
sequence's order, each rendered with the context extended so that `this` (and,
for record elements, each named field) resolves to that element; the empty
sequence renders to the empty string with no error. -/
theorem iter_semantics (listName : String) (body : Node) (ctx : Context) (elems : List Elem)
    (h : lookupCtx ctx listName = some (Value.listV elems)) :
    renderNode (Node.iter listName body) ctx
      = (elems.mapM (fun e => renderNode body (extendCtx e ctx))).map
          (fun ss => ss.foldr (fun a b => a ++ b) "")
    ∧ (elems = [] → renderNode (Node.iter listName body) ctx = Except.ok "")
    ∧ (∀ s, lookupCtx (extendCtx (Elem.scalar s) ctx) "this" = some (Value.str s))
    ∧ (∀ fs k v, List.lookup k fs = some v →
        lookupCtx (extendCtx (Elem.record fs) ctx) k = some (Value.str v)) := by
  refine ⟨?_, ?_, ?_, ?_⟩
  · simp only [renderNode, h]
    exact goElems_mapM (renderNode body) ctx elems
  · intro he
    subst he
    simp [renderNode, h, goElems]
  · intro s
    exact lookup_extend_scalar s ctx
  · intro fs k v hv
    exact lookup_extend_record fs ctx k v hv

/-- Witness for C2 at a concrete two-element sequence. -/
theorem iter_semantics_w :
    renderNode (Node.iter "ITEMS" (Node.interp "this"))
        [("ITEMS", Value.listV [Elem.scalar "a", Elem.scalar "b"])]
      = (([Elem.scalar "a", Elem.scalar "b"].mapM
          (fun e => renderNode (Node.interp "this")
            (extendCtx e [("ITEMS", Value.listV [Elem.scalar "a", Elem.scalar "b"])]))).map
          (fun ss => ss.foldr (fun a b => a ++ b) "")) :=
  (iter_semantics "ITEMS" (Node.interp "this")
    [("ITEMS", Value.listV [Elem.scalar "a", Elem.scalar "b"])]
    [Elem.scalar "a", Elem.scalar "b"] rfl).1

/-- Claim C3: a conditional whose present flag is falsy renders to the empty
string no matter what its body contains — placeholders referenced only inside
the skipped body cannot raise UndefinedVariable, and a nested iteration block
is fully elided regardless of whether its list name resolves. -/
theorem false_cond_skips (flag y listName : String) (ibody : Node) (ctx : Context) (v : Value)
    (h1 : lookupCtx ctx flag = some v) (h2 : Value.truthy v = false) :
    (∀ body, renderNode (Node.cond flag body) ctx = Except.ok "")
    ∧ renderNode
        (Node.cond flag (Node.seq (Node.interp y) (Node.iter listName ibody))) ctx
      = Except.ok "" := by
  refine ⟨?_, ?_⟩
  · intro body
    simp [renderNode, h1, h2]
  · simp [renderNode, h1, h2]

/-- Witness for C3 at a concrete falsy flag with unresolvable body names. -/
theorem false_cond_skips_w :
    renderNode
        (Node.cond "F" (Node.seq (Node.interp "missing") (Node.iter "alsoMissing" Node.empty)))
        [("F", Value.boolV false)]
      = Except.ok "" :=
  (false_cond_skips "F" "missing" "alsoMissing" Node.empty
    [("F", Value.boolV false)] (Value.boolV false) rfl rfl).2

/-- Claim C4: Render either returns a fully rendered output string or fails
with exactly one of the two typed errors: MalformedTemplate exactly when the
structural parse fails (before any interpretation), or UndefinedVariable after
a successful parse; the Except result is atomic, so no incomplete output
exists on error. -/
theorem render_error_taxonomy (t : String) (ctx : Context) :
    (∃ s, renderTemplate t ctx = Except.ok s)
    ∨ (renderTemplate t ctx = Except.error RenderError.malformedTemplate
        ∧ parseTemplate t = none)
    ∨ (∃ x ast, parseTemplate t = some ast
        ∧ renderTemplate t ctx = Except.error (RenderError.undefinedVariable x)) := by
  cases hp : parseTemplate t with
  | none =>
    exact Or.inr (Or.inl ⟨by simp [renderTemplate, hp], rfl⟩)
  | some ast =>
    cases hr : renderNode ast ctx with
    | ok s => exact Or.inl ⟨s, by simp [renderTemplate, hp, hr]⟩
    | error e =>
      obtain ⟨x, hx, _⟩ := renderNode_err ast ctx e hr
      subst hx
      exact Or.inr (Or.inr ⟨x, ast, rfl, by simp [renderTemplate, hp, hr]⟩)

/-- Claim C5: Render replaces a simple interpolation marker with the string
form of the context entry for its name, and fails with UndefinedVariable if
the name is absent — both for the concrete double-brace template syntax and
for the interpolation AST node. -/
theorem interp_semantics (n : String) (ctx : Context) (h : isIdentL n.data = true) :
    renderTemplate (markerOf n) ctx
      = (match lookupCtx ctx n with
         | some v => Except.ok v.toStr
         | none => Except.error (RenderError.undefinedVariable n))
    ∧ renderNode (Node.interp n) ctx
      = (match lookupCtx ctx n with
         | some v => Except.ok v.toStr
         | none => Except.error (RenderError.undefinedVariable n)) := by
  have hcl : classify n.data = MTok.interp n := by
    rw [classify_ident n.data h, strMkData]
  constructor
  · unfold renderTemplate parseTemplate
    rw [scan_markerOf n h, parseTokens_marker n n hcl]
    simp only [renderNode]
    cases hl : lookupCtx ctx n with
    | some v => simp [strAppendEmpty]
    | none => simp
  · simp only [renderNode]

/-- Witness for C5 at a concrete name and context. -/
theorem interp_semantics_w :
    renderTemplate (markerOf "NAME") [("NAME", Value.str "World")] = Except.ok "World" :=
  (interp_semantics "NAME" [("NAME", Value.str "World")] rfl).1

/-- Claim C6: Render is deterministic — it is a pure function of the
(template, context) pair, so two successful renderings of the identical pair
are byte-for-byte identical. -/
theorem render_deterministic (t : String) (ctx : Context) (s1 s2 : String)
    (h1 : renderTemplate t ctx = Except.ok s1) (h2 : renderTemplate t ctx = Except.ok s2) :
    s1 = s2 := by
  rw [h1] at h2
  injection h2

/-- Witness for C6 at a concrete render. -/
theorem render_deterministic_w : ("hi" : String) = "hi" :=
  render_deterministic "hi" [] "hi" "hi" rfl rfl

/-- Claim C7: a template containing no marker opener renders to itself, for
every context: Render is the identity on marker-free input. -/
theorem noMarker_identity (t : String) (ctx : Context)
    (h : patIn [lbrace, lbrace] t.data = false) :
    renderTemplate t ctx = Except.ok t := by
  have hs := (scan_plain_nomarker t.data [] [] h).1
  have hscan : scanTemplate t = finalize ⟨[], SMode.plain (t.data.reverse ++ [])⟩ := hs
  rw [List.append_nil] at hscan
  cases hd : t.data with
  | nil =>
    have ht : t = "" := by rw [← strMkData t, hd]
    subst ht
    rfl
  | cons c cs =>
    rw [hd] at hscan
    obtain ⟨d, ds, hds⟩ : ∃ d ds, (c :: cs).reverse = d :: ds := by
      cases hrev : (c :: cs).reverse with
      | nil => exact absurd hrev (by simp)
      | cons d ds => exact ⟨d, ds, rfl⟩
    rw [hds] at hscan
    have hfin : finalize (⟨[], SMode.plain (d :: ds)⟩ : SState)
        = [Tok.text (String.mk ((d :: ds).reverse))] := by
      simp [finalize, runToks]
    rw [hfin, ← hds, List.reverse_reverse, ← hd, strMkData] at hscan
    unfold renderTemplate parseTemplate
    rw [hscan, parseTokens_text t]
    simp [renderNode, strAppendEmpty]

/-- Witness for C7 at a concrete marker-free template. -/
theorem noMarker_identity_w :
    renderTemplate "plain text, no markers" [] = Except.ok "plain text, no markers" :=
  noMarker_identity "plain text, no markers" [] (by decide)

/-- Claim C8: rendering is a bounded single left-to-right scan — the scan
emits at most one token per character of the template, and the parser's fuel
is irrelevant beyond the token count: any fuel larger than the template's
size yields the same parse, so the whole computation converges within work
bounded by the template's size. -/
theorem render_bounded (t : String) (fuel : Nat) (h : t.data.length < fuel) :
    (scanTemplate t).length ≤ t.data.length
    ∧ parseB fuel (scanTemplate t) Stop.top
        = parseB ((scanTemplate t).length + 1) (scanTemplate t) Stop.top := by
  have hlen := scan_len t
  refine ⟨hlen, ?_⟩
  have h2 : (scanTemplate t).length + 1 ≤ fuel :=
    Nat.succ_le_of_lt (Nat.lt_of_le_of_lt hlen h)
  have h3 := parseB_stable (fuel - ((scanTemplate t).length + 1))
    ((scanTemplate t).length + 1) (scanTemplate t) Stop.top (Nat.lt_succ_self _)
  rw [Nat.add_sub_cancel' h2] at h3
  exact h3

/-- Witness for C8 at a concrete template and fuel. -/
theorem render_bounded_w :
    (scanTemplate "hi").length ≤ ("hi" : String).data.length
    ∧ parseB 10 (scanTemplate "hi") Stop.top
        = parseB ((scanTemplate "hi").length + 1) (scanTemplate "hi") Stop.top :=
  render_bounded "hi" 10 (by decide)

/-- Claim C9: the shipped template health-check-template.py is syntactically
well-formed — every conditional and iteration opener has its matching closer,
properly nested — so it parses, and Render applied to it never fails with
MalformedTemplate for any context. -/
theorem template_wellFormed :
    (parseTemplate healthCheckTemplate).isSome = true
    ∧ ∀ ctx, renderTemplate healthCheckTemplate ctx
        ≠ Except.error RenderError.malformedTemplate := by
  cases hp : parseTokens hcToks with
  | none =>
    exfalso
    have hck := hcChecks_true
    simp [hcChecks, hp] at hck
  | some ast =>
    constructor
    · rw [hc_parse, hp]
      rfl
    · intro ctx hbad
      rw [renderTemplate, hc_parse, hp] at hbad
      obtain ⟨x, hx, _⟩ := renderNode_err ast ctx _ hbad
      simp at hx

/-- Witness for C9 at a concrete context. -/
theorem template_wellFormed_w :
    (parseTemplate healthCheckTemplate).isSome = true :=
  template_wellFormed.1

/-- Claim C10: the brace pairs around the Docker format keys Names and Status
inside the docker conditional are not valid IDENTIFIER markers: the parsed
template carries them as literal text on the docker conditional's spine, every
successful rendering under a truthy docker_required flag emits them unchanged
in the output, and rendering never fails with UndefinedVariable for the names
.Names or .Status. -/
theorem docker_literal_braces (ctx : Context) (v : Value)
    (h1 : lookupCtx ctx "docker_required" = some v) (h2 : Value.truthy v = true) :
    (∃ ast, parseTemplate healthCheckTemplate = some ast
      ∧ spineHasTextUnder dotNamesLit ["docker_required"] ast = true
      ∧ spineHasTextUnder dotStatusLit ["docker_required"] ast = true)
    ∧ (∀ s, renderTemplate healthCheckTemplate ctx = Except.ok s →
        patIn dotNamesLit.data s.data = true ∧ patIn dotStatusLit.data s.data = true)
    ∧ (∀ x, renderTemplate healthCheckTemplate ctx
          = Except.error (RenderError.undefinedVariable x) →
        ¬(x = ".Names" ∨ x = ".Status")) := by
  cases hp : parseTokens hcToks with
  | none =>
    exfalso
    have hck := hcChecks_true
    simp [hcChecks, hp] at hck
  | some ast =>
    have hck := hcChecks_true
    simp only [hcChecks, hp, Bool.and_eq_true, Bool.not_eq_true',
      decide_eq_false_iff_not] at hck
    obtain ⟨⟨⟨hA, hB⟩, hC⟩, hD⟩ := hck
    have hflags : ∀ f, f ∈ ["docker_required"] →
        ∃ v', lookupCtx ctx f = some v' ∧ Value.truthy v' = true := by
      intro f hf
      simp only [List.mem_singleton] at hf
      subst hf
      exact ⟨v, h1, h2⟩
    refine ⟨⟨ast, hc_parse.trans (by rw [hp]), hA, hB⟩, ?_, ?_⟩
    · intro s hs
      rw [renderTemplate, hc_parse, hp] at hs
      exact ⟨spine_render dotNamesLit ["docker_required"] ast ctx s hflags hA hs,
        spine_render dotStatusLit ["docker_required"] ast ctx s hflags hB hs⟩
    · intro x hx
      rw [renderTemplate, hc_parse, hp] at hx
      obtain ⟨y, hy, hymem⟩ := renderNode_err ast ctx _ hx
      injection hy with hy2
      subst hy2
      intro hor
      cases hor with
      | inl he => rw [he] at hymem; exact hC hymem
      | inr he => rw [he] at hymem; exact hD hymem

/-- Witness for C10 at a concrete context with a truthy docker flag. -/
theorem docker_literal_braces_w :
    (∃ ast, parseTemplate healthCheckTemplate = some ast
      ∧ spineHasTextUnder dotNamesLit ["docker_required"] ast = true
      ∧ spineHasTextUnder dotStatusLit ["docker_required"] ast = true)
    ∧ (∀ s, renderTemplate healthCheckTemplate [("docker_required", Value.boolV true)]
          = Except.ok s →
        patIn dotNamesLit.data s.data = true ∧ patIn dotStatusLit.data s.data = true)
    ∧ (∀ x, renderTemplate healthCheckTemplate [("docker_required", Value.boolV true)]
          = Except.error (RenderError.undefinedVariable x) →
        ¬(x = ".Names" ∨ x = ".Status")) :=
  docker_literal_braces [("docker_required", Value.boolV true)] (Value.boolV true) rfl rfl
